import Mathlib

/-!
Verification development for the viral-post analysis and format-learning
pipeline of the `bigzec` dashboard (`src/dashboard/lib/viral-analyzer.ts`
and `src/dashboard/lib/content-generator.ts`).

Text is modelled as `List Char` (one element per Unicode code point, the
view JavaScript regexes take of a string; the source file
`viral-analyzer.ts` stores some literals in double-encoded UTF-8, and those
literals are transcribed here code point for code point as they appear in
the file).  JavaScript numbers are modelled as `ℚ` (the arithmetic in the
analyzed code stays well inside the exactly-representable range except for
binary rounding of decimal literals, which is ignored), and the wall-clock
`createdAt`/`updatedAt` fields of stored records are omitted, as no
analyzed property mentions them.
-/

attribute [local semireducible] Rat.add Rat.mul Rat.inv Rat.sub Rat.ofScientific

/-- Strings as lists of code points. -/
abbrev Str := List Char

/-- Converts a Lean string literal to the `Str` model. -/
def strL (s : String) : Str := s.data

/-- Word character class of JavaScript regexes: `[A-Za-z0-9_]`. -/
def isWordChar (c : Char) : Bool :=
  (('a' ≤ c && c ≤ 'z') || ('A' ≤ c && c ≤ 'Z') || ('0' ≤ c && c ≤ '9') || c = '_')

/-- Digit class `\d`. -/
def isDigitChar (c : Char) : Bool := '0' ≤ c && c ≤ '9'

/-- Whitespace class `\s` (ASCII part, which covers every literal in the repository). -/
def isSpaceChar (c : Char) : Bool :=
  (c = ' ' || c = '\t' || c = '\n' || c = '\r' || c = '\x0b' || c = '\x0c')

/-- ASCII lowercasing, applied code point by code point (`String.prototype.toLowerCase`
restricted to ASCII; no analyzed property depends on non-ASCII case folding). -/
def lowerStr (s : Str) : Str := s.map Char.toLower

/-- ASCII uppercasing (for `String.prototype.toUpperCase` on enum slugs). -/
def upperStr (s : Str) : Str := s.map Char.toUpper

/-- Removes leading and trailing whitespace (`String.prototype.trim`). -/
def jsTrim (s : Str) : Str :=
  ((s.dropWhile isSpaceChar).reverse.dropWhile isSpaceChar).reverse

/-- Splits at every occurrence of a separator character, keeping empty pieces,
as `String.prototype.split('\n')` does (`"".split` gives one empty piece). -/
def splitOnChar (sep : Char) : Str → List Str
  | [] => [[]]
  | c :: rest =>
    match splitOnChar sep rest, decide (c = sep) with
    | r, true => [] :: r
    | s :: ss, false => (c :: s) :: ss
    | [], false => [[c]]

/-- Splits on maximal whitespace runs as `split(/\s+/)` does: an empty first
piece appears when the text starts with whitespace, an empty last piece when
it ends with whitespace, and the empty text gives one empty piece. -/
def splitWsRuns : Str → List Str
  | [] => [[]]
  | c :: t =>
    let r := splitWsRuns t
    if isSpaceChar c then
      match t with
      | [] => [] :: r
      | d :: _ => if isSpaceChar d then r else [] :: r
    else
      match r with
      | s :: ss => (c :: s) :: ss
      | [] => [[c]]

/-- Tests whether `needle` occurs as a contiguous run inside `hay`
(`String.prototype.includes`). -/
def strContains (hay needle : Str) : Bool :=
  match hay with
  | [] => needle.isEmpty
  | _ :: t => needle.isPrefixOf hay || strContains t needle

/-- Tests whether a string ends with the given character
(`String.prototype.endsWith` with a one-character argument). -/
def endsWithChar (s : Str) (c : Char) : Bool :=
  match s.getLast? with
  | some d => d = c
  | none => false

/-!
A small regular-expression engine with JavaScript semantics: leftmost match,
backtracking in source order, greedy quantifiers.  The abstract syntax covers
exactly the constructs used by the analyzed pattern tables.  A matcher state
is the character just before the unconsumed suffix (which `\b` and multiline
`^` inspect) together with that suffix; `matchList` returns every state in
which the expression can stop, in the engine's backtracking priority order.
-/

/-- Regular-expression abstract syntax. `starCh`/`plusCh`/`repCh n` are
greedy quantifiers over a one-character class, `starGrp c n p` is the greedy
star of the fixed-shape group `c` followed by exactly `n` class characters
(the shape of `(?:,\d{3})*`), `bnd` is `\b`, `bosA m` is `^` (with `m` the
multiline flag) and `eosA` is `$` without the multiline flag. -/
inductive Re where
  | emp : Re
  | chC (p : Char → Bool) : Re
  | strR (s : Str) : Re
  | seqR (a b : Re) : Re
  | altR (a b : Re) : Re
  | optR (a : Re) : Re
  | starCh (p : Char → Bool) : Re
  | plusCh (p : Char → Bool) : Re
  | repCh (n : Nat) (p : Char → Bool) : Re
  | starGrp (c : Char) (n : Nat) (p : Char → Bool) : Re
  | bnd : Re
  | bosA (m : Bool) : Re
  | eosA : Re

/-- Matcher state after a partial match: the character preceding the
unconsumed suffix, and the suffix itself. -/
abbrev ReState := Option Char × Str

/-- Whether an optional character is a word character (`\b` treats the
outside of the string as a non-word position). -/
def isWordOpt : Option Char → Bool
  | some c => isWordChar c
  | none => false

/-- Consumes a literal string. -/
def matchStr : Str → Option Char → Str → List ReState
  | [], prev, s => [(prev, s)]
  | l :: ls, _, c :: t => if l = c then matchStr ls (some c) t else []
  | _ :: _, _, [] => []

/-- States after consuming `k` class characters, for `k` from the maximal
run length down to zero (greedy priority order). -/
def chRunStates (p : Char → Bool) (prev : Option Char) (s : Str) : List ReState :=
  match s with
  | c :: t =>
    if p c then chRunStates p (some c) t ++ [(prev, s)]
    else [(prev, s)]
  | [] => [(prev, s)]

/-- States after consuming exactly `n` class characters (regex `p{n}`). -/
def repChStates : Nat → (Char → Bool) → Option Char → Str → List ReState
  | 0, _, prev, s => [(prev, s)]
  | n + 1, p, _, s =>
    match s with
    | c :: t => if p c then repChStates n p (some c) t else []
    | [] => []

/-- All states in which the expression can stop when matching from the
given state, in backtracking priority order; `recur` is the matcher used
for `starGrp` unfoldings (one fuel level down). -/
def matchListGo (recur : Re → Option Char → Str → List ReState) :
    Re → Option Char → Str → List ReState
  | .emp, prev, s => [(prev, s)]
  | .chC p, _, s =>
    (match s with
     | c :: t => if p c then [(some c, t)] else []
     | [] => [])
  | .strR l, prev, s => matchStr l prev s
  | .seqR a b, prev, s =>
    (matchListGo recur a prev s).flatMap fun st => matchListGo recur b st.1 st.2
  | .altR a b, prev, s => matchListGo recur a prev s ++ matchListGo recur b prev s
  | .optR a, prev, s => matchListGo recur a prev s ++ [(prev, s)]
  | .starCh p, prev, s => chRunStates p prev s
  | .plusCh p, prev, s =>
    (match s with
     | c :: t => if p c then chRunStates p (some c) t else []
     | [] => [])
  | .repCh n p, prev, s => repChStates n p prev s
  | .starGrp c n p, prev, s =>
    (match s with
     | d :: _ =>
       if d = c then
         ((recur (.seqR (.strR [c]) (.repCh n p)) prev s).flatMap
           fun st => recur (.starGrp c n p) st.1 st.2)
         ++ [(prev, s)]
       else [(prev, s)]
     | [] => [(prev, s)])
  | .bnd, prev, s =>
    if isWordOpt prev != isWordOpt s.head? then [(prev, s)] else []
  | .bosA m, prev, s =>
    (match prev with
     | none => [(prev, s)]
     | some c => if m && c = '\n' then [(prev, s)] else [])
  | .eosA, prev, s => if s.isEmpty then [(prev, s)] else []
termination_by structural r _ _ => r

/-- Fuel-indexed matcher; the fuel only bounds the nesting of `starGrp`
unfoldings, each of which consumes at least one character. -/
def matchList : Nat → Re → Option Char → Str → List ReState
  | 0 => fun _ _ _ => []
  | fuel + 1 => matchListGo (matchList fuel)

/-- Leftmost-match search: finds the first position at which `r` matches,
returning the prefix before the match, the matched text, and the matcher
state after it. -/
def reFind (r : Re) : Option Char → Str → Option (Str × Str × ReState)
  | prev, s =>
    match matchList (s.length + 2) r prev s with
    | st :: _ => some ([], s.take (s.length - st.2.length), st)
    | [] =>
      match s with
      | [] => none
      | c :: t =>
        match reFind r (some c) t with
        | some (pre, m, st) => some (c :: pre, m, st)
        | none => none

/-- First match of `r` in `s` as (index, matched text), the JavaScript
`String.prototype.match` view (without the `g` flag). -/
def jsMatch (r : Re) (s : Str) : Option (Nat × Str) :=
  match reFind r none s with
  | some (pre, m, _) => some (pre.length, m)
  | none => none

/-- Whether `r` matches anywhere in `s` (`RegExp.prototype.test`). -/
def jsTest (r : Re) (s : Str) : Bool := (jsMatch r s).isSome

/-- All non-overlapping matches of `r` in `s`, left to right, as for a
global regex; a (never exercised) empty match advances by one character. -/
def jsMatchAll (r : Re) (s : Str) : List Str :=
  go (s.length + 1) none s
where
  go : Nat → Option Char → Str → List Str
    | 0, _, _ => []
    | fuel+1, prev, s =>
      match reFind r prev s with
      | some (_, [], st) =>
        (match st.2 with
         | c :: t => go fuel (some c) t
         | [] => [])
      | some (_, m, st) => m :: go fuel st.1 st.2
      | none => []

/-- Splits `s` at every match of a global regex (`String.prototype.split`
with a regex argument, for regexes that cannot match the empty string). -/
def jsSplit (r : Re) (s : Str) : List Str :=
  go (s.length + 1) none s
where
  go : Nat → Option Char → Str → List Str
    | 0, _, s => [s]
    | fuel+1, prev, s =>
      match reFind r prev s with
      | some (pre, _ :: _, st) => pre :: go fuel st.1 st.2
      | _ => [s]

/-!
Content parser (`parsePostContent` and its helpers in `viral-analyzer.ts`).
-/

/-- ASCII letter class `[a-zA-Z]`. -/
def isAsciiLetter (c : Char) : Bool :=
  (('a' ≤ c && c ≤ 'z') || ('A' ≤ c && c ≤ 'Z'))

/-- Emoji extraction regex
`/[\u{1F300}-\u{1F9FF}]|[\u{2600}-\u{26FF}]|[\u{2700}-\u{27BF}]/gu`. -/
def emojiRe : Re :=
  .altR (.chC fun c => 0x1F300 ≤ c.toNat && c.toNat ≤ 0x1F9FF)
    (.altR (.chC fun c => 0x2600 ≤ c.toNat && c.toNat ≤ 0x26FF)
      (.chC fun c => 0x2700 ≤ c.toNat && c.toNat ≤ 0x27BF))

/-- Hashtag regex `/#[\w]+/g`. -/
def hashtagRe : Re := .seqR (.strR (strL ("#"))) (.plusCh isWordChar)

/-- Mention regex `/@[\w]+/g`. -/
def mentionRe : Re := .seqR (.strR (strL ("@"))) (.plusCh isWordChar)

/-- Link regex `/https?:\/\/[^\s]+/g`. -/
def urlRe : Re :=
  .seqR (.strR (strL ("http")))
    (.seqR (.optR (.strR (strL ("s"))))
      (.seqR (.strR (strL ("://"))) (.plusCh fun c => !isSpaceChar c)))

/-- Numeric-token regex `/\b\d+(?:,\d{3})*(?:\.\d+)?%?\b/g`. -/
def numberRe : Re :=
  .seqR .bnd
    (.seqR (.plusCh isDigitChar)
      (.seqR (.starGrp ',' 3 isDigitChar)
        (.seqR (.optR (.seqR (.strR (strL ("."))) (.plusCh isDigitChar)))
          (.seqR (.optR (.strR (strL ("%")))) .bnd))))

/-- Paragraph separator regex `/\n\s*\n/` used by the paragraph split. -/
def paraRe : Re :=
  .seqR (.strR (strL ("\n"))) (.seqR (.starCh isSpaceChar) (.strR (strL ("\n"))))

/-- Analogue of `Math.round`: round half towards positive infinity. -/
def jsRound (q : ℚ) : ℤ := round q

/-- Result record of `analyzeCapitalization`. -/
structure CapitalizationPattern where
  hasAllCaps : Bool
  allCapsWords : List Str
  hasTitleCase : Bool
  averageWordLength : ℚ
deriving DecidableEq, Repr

/-- Result record of `analyzeLineBreaks`; `totalLineBreaks` is an integer
because the source computes `lines.length - 1` on a JavaScript number. -/
structure LineBreakStructure where
  totalLineBreaks : ℤ
  averageLineLength : ℤ
  shortLines : Nat
  mediumLines : Nat
  longLines : Nat
  hasDoubleLineBreaks : Bool
deriving DecidableEq, Repr

/-- Translation of `analyzeCapitalization`. -/
def analyzeCapitalization (content : Str) : CapitalizationPattern :=
  let words := splitWsRuns content
  let allCapsWords := words.filter fun w =>
    w.length > 1 && w = upperStr w && w.any fun c => 'A' ≤ c && c ≤ 'Z'
  let titleCaseWords := words.filter fun w =>
    let letters := w.filter isAsciiLetter
    match letters with
    | [] => false
    | l0 :: rest => l0 = l0.toUpper && rest = lowerStr rest
  let letterWords := words.filter fun w => w.any isAsciiLetter
  let avgLength : ℚ :=
    if letterWords.length > 0 then
      ((letterWords.map List.length).sum : ℚ) / (letterWords.length : ℚ)
    else 0
  { hasAllCaps := allCapsWords.length > 0
    allCapsWords := allCapsWords
    hasTitleCase := titleCaseWords.length > 0
    averageWordLength := (jsRound (avgLength * 10) : ℚ) / 10 }

/-- Translation of `analyzeLineBreaks`.  The argument is the blank-filtered
line list built by `parsePostContent`. -/
def analyzeLineBreaks (lines : List Str) : LineBreakStructure :=
  let lengths := lines.map List.length
  let avgLength : ℚ :=
    if lengths.length > 0 then (lengths.sum : ℚ) / (lengths.length : ℚ) else 0
  { totalLineBreaks := (lines.length : ℤ) - 1
    averageLineLength := jsRound avgLength
    shortLines := (lengths.filter fun l => l < 30).length
    mediumLines := (lengths.filter fun l => 30 ≤ l && l < 100).length
    longLines := (lengths.filter fun l => 100 ≤ l).length
    hasDoubleLineBreaks := lines.any fun l => (jsTrim l).length = 0 }

/-- Structured feature bag produced by `parsePostContent`. -/
structure ParsedContent where
  original : Str
  lines : List Str
  paragraphs : List Str
  wordCount : Nat
  characterCount : Nat
  hasEmoji : Bool
  emojiCount : Nat
  hasHashtags : Bool
  hashtags : List Str
  hasMentions : Bool
  mentions : List Str
  hasLinks : Bool
  links : List Str
  hasNumbers : Bool
  numbers : List Str
  capitalizationPatterns : CapitalizationPattern
  lineBreakStructure : LineBreakStructure
deriving DecidableEq, Repr

/-- Translation of `parsePostContent`. -/
def parsePostContent (content : Str) : ParsedContent :=
  let lines := (splitOnChar '\n' content).filter fun l => (jsTrim l).length > 0
  let paragraphs := (jsSplit paraRe content).filter fun p => (jsTrim p).length > 0
  let words := (splitWsRuns content).filter fun w => w.length > 0
  let emojis := jsMatchAll emojiRe content
  let hashtags := jsMatchAll hashtagRe content
  let mentions := jsMatchAll mentionRe content
  let links := jsMatchAll urlRe content
  let numbers := jsMatchAll numberRe content
  { original := content
    lines := lines
    paragraphs := paragraphs
    wordCount := words.length
    characterCount := content.length
    hasEmoji := emojis.length > 0
    emojiCount := emojis.length
    hasHashtags := hashtags.length > 0
    hashtags := hashtags
    hasMentions := mentions.length > 0
    mentions := mentions
    hasLinks := links.length > 0
    links := links
    hasNumbers := numbers.length > 0
    numbers := numbers
    capitalizationPatterns := analyzeCapitalization content
    lineBreakStructure := analyzeLineBreaks lines }

/-!
Enumerations from `types/social-media.ts` with their string values, and the
classifier rule tables from `viral-analyzer.ts`.  Pattern literals are
written lowercase because every classifier lowercases its input before
matching (making the `i` flag inert); `\x27` is an apostrophe.
-/

/-- Hook classification (enum `HookType`). -/
inductive HookType where
  | question | bold_statement | story | list | controversial_take
  | statistic | quote | how_to | none
deriving DecidableEq, Repr

/-- String value of a `HookType`. -/
def HookType.str : HookType → Str
  | .question => strL ("question")
  | .bold_statement => strL ("bold_statement")
  | .story => strL ("story")
  | .list => strL ("list")
  | .controversial_take => strL ("controversial_take")
  | .statistic => strL ("statistic")
  | .quote => strL ("quote")
  | .how_to => strL ("how_to")
  | .none => strL ("none")

/-- Body classification (enum `BodyType`). -/
inductive BodyType where
  | problem_solution | story_driven | listicle | tutorial | insight_sharing
  | comparison | myth_busting | lesson_learned | thread | narrative
deriving DecidableEq, Repr

/-- String value of a `BodyType`. -/
def BodyType.str : BodyType → Str
  | .problem_solution => strL ("problem_solution")
  | .story_driven => strL ("story_driven")
  | .listicle => strL ("listicle")
  | .tutorial => strL ("tutorial")
  | .insight_sharing => strL ("insight_sharing")
  | .comparison => strL ("comparison")
  | .myth_busting => strL ("myth_busting")
  | .lesson_learned => strL ("lesson_learned")
  | .thread => strL ("thread")
  | .narrative => strL ("narrative")

/-- Call-to-action classification (enum `CTAType`). -/
inductive CTAType where
  | question_to_audience | link | engagement_bait | follow_up
  | save_for_later | share | comment_prompt | none
deriving DecidableEq, Repr

/-- String value of a `CTAType`. -/
def CTAType.str : CTAType → Str
  | .question_to_audience => strL ("question_to_audience")
  | .link => strL ("link")
  | .engagement_bait => strL ("engagement_bait")
  | .follow_up => strL ("follow_up")
  | .save_for_later => strL ("save_for_later")
  | .share => strL ("share")
  | .comment_prompt => strL ("comment_prompt")
  | .none => strL ("none")

/-- Emotional trigger categories (enum `EmotionalTrigger`). -/
inductive EmotionalTrigger where
  | curiosity | fear | excitement | validation | surprise | anger
  | nostalgia | inspiration | frustration | hope | urgency | fomo
deriving DecidableEq, Repr

/-- String value of an `EmotionalTrigger`. -/
def EmotionalTrigger.str : EmotionalTrigger → Str
  | .curiosity => strL ("curiosity")
  | .fear => strL ("fear")
  | .excitement => strL ("excitement")
  | .validation => strL ("validation")
  | .surprise => strL ("surprise")
  | .anger => strL ("anger")
  | .nostalgia => strL ("nostalgia")
  | .inspiration => strL ("inspiration")
  | .frustration => strL ("frustration")
  | .hope => strL ("hope")
  | .urgency => strL ("urgency")
  | .fomo => strL ("fomo")

/-- Publishing platform (type `Platform`). -/
inductive Platform where
  | linkedin | twitter
deriving DecidableEq, Repr

/-- String value of a `Platform`. -/
def Platform.str : Platform → Str
  | .linkedin => strL ("linkedin")
  | .twitter => strL ("twitter")

/-- Ordered alternation of a list of expressions (regex `(a|b|c)`). -/
def altList : List Re → Re
  | [] => .emp
  | [r] => r
  | r :: rest => .altR r (altList rest)

/-- Ordered alternation of literal strings. -/
def strAlts (l : List String) : Re := altList (l.map fun s => .strR (strL s))

/-- Shape `/^(a|b|c)/` with literal alternatives. -/
def reStart (l : List String) : Re := .seqR (.bosA false) (strAlts l)

/-- Shape `/\b(a|b|c)\b/` with literal alternatives. -/
def reWordB (l : List String) : Re := .seqR .bnd (.seqR (strAlts l) .bnd)

/-- Literal string expression. -/
def lit (s : String) : Re := .strR (strL s)

/-- One or more digits, regex `\d+`. -/
def reDigits : Re := .plusCh isDigitChar

/-- Rule table `HOOK_PATTERNS`, in object insertion order. -/
def hookPatterns : List (HookType × List Re) := [
  (.question, [
    reStart ["what", "why", "how", "when", "where", "who", "which", "do you",
      "did you", "have you", "are you", "is your", "would you", "could you"],
    .seqR (lit ("?")) .eosA,
    reStart ["ever wondered", "have you ever", "did you know"]]),
  (.bold_statement, [
    reStart ["this is", "here\x27s the truth", "let me be clear",
      "i\x27ll say it", "the truth is", "here\x27s what nobody tells you"],
    reStart ["stop", "don\x27t", "never", "always", "everyone", "nobody",
      "nothing", "everything"],
    reWordB ["unpopular opinion", "hot take", "controversial opinion"]]),
  (.story, [
    reStart ["so", "i was", "last week", "yesterday", "a few years ago",
      "when i started", "back in", "my journey"],
    reStart ["story time", "let me tell you", "here\x27s a story"],
    reWordB ["my story", "this changed everything", "turning point"]]),
  (.list, [
    .seqR (.bosA false) (.seqR reDigits (.seqR (.plusCh isSpaceChar)
      (strAlts ["ways", "things", "reasons", "tips", "secrets", "mistakes",
        "lessons", "habits", "books", "tools", "apps"]))),
    .seqR (.bosA false) (altList [lit ("here are"),
      .seqR (lit ("here\x27s ")) reDigits,
      .seqR (lit ("top ")) reDigits,
      .seqR (lit ("best ")) reDigits,
      .seqR reDigits (lit (" of the"))]),
    reWordB ["step by step", "checklist"]]),
  (.controversial_take, [
    reStart ["unpopular opinion", "hot take", "controversial",
      "i\x27ll probably get hate", "this might upset"],
    reWordB ["is overrated", "is underrated", "everyone is wrong",
      "the industry is", "nobody talks about"],
    reWordB ["gatekeep", "red flag", "toxic", "problematic"]]),
  (.statistic, [
    .seqR (.bosA false) (altList [.seqR reDigits (lit ("%")),
      lit ("according to"), lit ("studies show"), lit ("research shows"),
      lit ("data shows"), lit ("statistics show")]),
    .seqR .bnd (altList [.seqR (lit ("in ")) (.seqR reDigits (lit (" years"))),
      .seqR (lit ("by ")) reDigits,
      .seqR (lit ("only ")) (.seqR reDigits (lit ("%"))),
      .seqR (lit ("more than ")) reDigits]),
    reWordB ["million", "billion", "trillion"]]),
  (.quote, [
    altList [.seqR (.bosA false) (.chC fun c => c = '"' || c = '\x27'),
      .seqR (.bosA false) (.seqR (.plusCh isWordChar) (.seqR (.plusCh isSpaceChar)
        (.seqR (lit ("once")) (.seqR (.plusCh isSpaceChar) (lit ("said")))))),
      .seqR (.bosA false) (altList [lit ("as "), lit ("\""), lit ("“")])],
    reWordB ["said it best", "famous words", "wisdom from"]]),
  (.how_to, [
    reStart ["how to", "how i", "how you can", "how we", "the complete guide",
      "ultimate guide", "step-by-step"],
    reWordB ["learn to", "mastering", "guide to", "roadmap to"]]),
  (.none, [])]

/-- Classifier verdict for the hook component. -/
structure HookResult where
  type : HookType
  confidence : ℚ
  matchedText : Str
deriving DecidableEq, Repr

/-- Translation of `detectHookType`: both lookup strings lowercased, first
line preferred over the first two joined lines, confidence 0.9 at string
start and 0.7 elsewhere, strict-improvement fold over the rule table, then
the trailing question-mark fallback. -/
def detectHookType (parsed : ParsedContent) : HookResult :=
  let firstLine := lowerStr (parsed.lines.headD [])
  let firstTwoLines := lowerStr (List.intercalate (strL (" ")) (parsed.lines.take 2))
  let best := hookPatterns.foldl (fun best tp =>
    if tp.1 = HookType.none then best
    else tp.2.foldl (fun best pat =>
      match jsMatch pat firstLine <|> jsMatch pat firstTwoLines with
      | some m =>
        let confidence : ℚ := if m.1 = 0 then 0.9 else 0.7
        if confidence > best.confidence then
          { type := tp.1, confidence := confidence, matchedText := m.2 }
        else best
      | Option.none => best) best)
    { type := HookType.none, confidence := 0, matchedText := [] }
  if endsWithChar (parsed.lines.headD []) '?' && best.confidence < 0.8 then
    { type := .question, confidence := 0.85, matchedText := parsed.lines.headD [] }
  else best

/-- Rule table `CTA_PATTERNS`, in object insertion order.  `.` in these
patterns does not cross newlines (no `s` flag). -/
def ctaPatterns : List (CTAType × List Re) := [
  (.question_to_audience, [
    .seqR (lit ("?")) .eosA,
    .seqR .bnd (.seqR (strAlts ["what do you think", "your thoughts",
      "agree or disagree", "what\x27s your", "how do you", "share your"])
      (.seqR .bnd (.seqR (.starCh fun c => c ≠ '\n') (lit ("?"))))),
    .seqR .bnd (.seqR (strAlts ["let me know", "tell me", "comment below"])
      (.seqR .bnd (.seqR (.starCh fun c => c ≠ '\n') (lit ("?")))))]),
  (.link, [
    .seqR (lit ("http")) (.seqR (.optR (lit ("s"))) (lit ("://"))),
    reWordB ["link in bio", "check the link", "visit", "click here",
      "read more at"],
    .seqR .bnd (.seqR (strAlts ["link", "article", "blog", "podcast", "video"])
      (.seqR .bnd (.seqR (.starCh fun c => c ≠ '\n')
        (.seqR .bnd (.seqR (strAlts ["below", "here"]) .bnd)))))]),
  (.engagement_bait, [
    reWordB ["like if", "comment", "share", "save", "follow", "subscribe",
      "retweet"],
    .seqR .bnd (.seqR (strAlts ["drop a", "leave a", "type", "drop your"])
      (.seqR .bnd (.seqR (.starCh fun c => c ≠ '\n')
        (.seqR .bnd (.seqR (strAlts ["comment", "below", "emoji", "reply"]) .bnd))))),
    reWordB ["double tap", "hit that", "smash that"]]),
  (.follow_up, [
    reWordB ["follow for", "stay tuned", "coming next", "tomorrow i\x27ll",
      "next post"],
    .seqR .bnd (.seqR (altList [lit ("to be continued"),
      .seqR (lit ("part ")) reDigits, lit ("more to come")]) .bnd),
    reWordB ["turn on notifications", "enable notifications"]]),
  (.save_for_later, [
    reWordB ["save this", "bookmark", "pin this", "save for later"],
    reWordB ["save this post", "worth saving", "reference"]]),
  (.share, [
    reWordB ["share this", "send this to", "tag someone", "forward this"],
    reWordB ["this might help someone", "someone needs to hear this"],
    reWordB ["repost", "retweet", "share with your"]]),
  (.comment_prompt, [
    .seqR .bnd (.seqR (strAlts ["comment", "reply", "drop", "type"])
      (.seqR .bnd (.seqR (.starCh fun c => c ≠ '\n')
        (.seqR .bnd (.seqR (altList [lit ("below"), lit ("your"),
          .seqR (lit ("a")) (.seqR (.optR (lit ("n"))) (lit (" emoji")))]) .bnd))))),
    reWordB ["starting a discussion", "let\x27s discuss",
      "conversation starter"],
    reWordB ["i want to hear from you", "tell me about"]]),
  (.none, [])]

/-- Classifier verdict for the call-to-action component. -/
structure CTAResult where
  type : CTAType
  confidence : ℚ
  matchedText : Str
deriving DecidableEq, Repr

/-- Translation of `detectCTAType`: the last three lines joined (primary)
and the whole lowercased text (secondary), confidence 0.85 when the matched
text occurs in the last-lines window and 0.7 otherwise, then the trailing
question-mark and link fallbacks. -/
def detectCTAType (parsed : ParsedContent) : CTAResult :=
  let lastLines := lowerStr (List.intercalate (strL (" "))
    (parsed.lines.drop (parsed.lines.length - 3)))
  let fullContent := lowerStr parsed.original
  let best := ctaPatterns.foldl (fun best tp =>
    if tp.1 = CTAType.none then best
    else tp.2.foldl (fun best pat =>
      match jsMatch pat lastLines <|> jsMatch pat fullContent with
      | some m =>
        let confidence : ℚ := if strContains lastLines m.2 then 0.85 else 0.7
        if confidence > best.confidence then
          { type := tp.1, confidence := confidence, matchedText := m.2 }
        else best
      | Option.none => best) best)
    { type := CTAType.none, confidence := 0, matchedText := [] }
  let best :=
    if endsWithChar (parsed.lines.getLastD []) '?' && best.confidence < 0.7 then
      { type := CTAType.question_to_audience, confidence := 0.75,
        matchedText := parsed.lines.getLastD [] }
    else best
  if parsed.hasLinks && best.confidence < 0.6 then
    { type := CTAType.link, confidence := 0.6, matchedText := parsed.links.headD [] }
  else best

/-!
Body classifier.  The file `viral-analyzer.ts` stores its bullet-glyph
literals in double-encoded UTF-8, so the running regexes see the code-point
sequences transcribed below (for example the bullet `•` appears in the
file as `â€¢`).
-/

/-- Bullet glyph literal as stored in the source file. -/
def bulletMoj : Str := strL ("â€¢")

/-- Arrow glyph literal as stored in the source file. -/
def arrowMoj : Str := strL ("â†’")

/-- Check-mark glyph literal as stored in the source file. -/
def checkMoj : Str := strL ("âœ“")

/-- Cross-mark glyph literal as stored in the source file. -/
def crossMoj : Str := strL ("âœ—")

/-- Triangle glyph literal as stored in the source file. -/
def triMoj : Str := strL ("â–¸")

/-- Thread emoji literal as stored in the source file. -/
def threadMoj : Str := strL ("ðŸ§µ")

/-- Structural cue `/\n\d+\./` for numbered list items. -/
def hasNumberedRe : Re := .seqR (lit ("\n")) (.seqR reDigits (lit (".")))

/-- Structural cue for bullet list items: the character class of
`/\n[â€¢\-\*â†’]/` as its code points appear in the file. -/
def hasBulletRe : Re :=
  .seqR (lit ("\n")) (.chC fun c =>
    (c = 'â' || c = '€' || c = '¢' || c = '-' || c = '*' ||
     c = '†' || c = '’'))

/-- Any character, the dot of a dot-all (`s` flag) regex. -/
def dotAll : Re := .starCh fun _ => true

/-- Greedy `.*` of a regex without the `s` flag: stays within one line. -/
def dotNoNL : Re := .starCh fun c => c ≠ '\n'

/-- One entry of the rule table `BODY_PATTERNS`. -/
structure BodyEntry where
  type : BodyType
  patterns : List Re
  indicators : List Str

/-- Rule table `BODY_PATTERNS`, in object insertion order. -/
def bodyPatterns : List BodyEntry := [
  { type := .problem_solution
    patterns := [
      .seqR .bnd (.seqR (strAlts ["problem", "issue", "challenge", "struggle",
        "pain point"]) (.seqR .bnd (.seqR dotAll (.seqR .bnd
        (.seqR (strAlts ["solution", "fix", "answer", "resolve", "solve"]) .bnd))))),
      .seqR .bnd (.seqR (lit ("here\x27s how "))
        (.seqR (.optR (strAlts ["i ", "we ", "you "]))
          (strAlts ["solved", "fixed", "overcame"]))),
      reWordB ["the fix", "the solution", "what worked"]]
    indicators := [strL ("problem-solution"), strL ("challenge-overcome"),
      strL ("struggle-resolution")] }
  ,
  { type := .story_driven
    patterns := [
      reStart ["so", "i was", "when i", "my journey", "my story"],
      reWordB ["then one day", "that\x27s when", "fast forward", "years later"],
      reWordB ["the turning point", "everything changed", "this moment"]]
    indicators := [strL ("narrative"), strL ("personal-experience"),
      strL ("chronological")] }
  ,
  { type := .listicle
    patterns := [
      .seqR (.bosA true) (altList [.seqR reDigits (lit (".")), lit ("1."),
        .strR bulletMoj, lit ("-"), .strR arrowMoj]),
      hasNumberedRe,
      .seqR (lit ("\n")) (altList [.strR bulletMoj, lit ("-"), .strR arrowMoj,
        .strR checkMoj, .strR crossMoj, .strR triMoj])]
    indicators := [strL ("numbered-list"), strL ("bullet-points"),
      strL ("enumerated-items")] }
  ,
  { type := .tutorial
    patterns := [
      .seqR .bnd (.seqR (altList [.seqR (lit ("step ")) reDigits, lit ("first"),
        lit ("then"), lit ("next"), lit ("finally"), lit ("lastly")]) .bnd),
      reWordB ["here\x27s how", "follow these", "do this"],
      reWordB ["tutorial", "guide", "walkthrough"]]
    indicators := [strL ("step-by-step"), strL ("instructional"),
      strL ("how-to")] }
  ,
  { type := .insight_sharing
    patterns := [
      reWordB ["i learned", "i realized", "the key insight",
        "my biggest takeaway"],
      reWordB ["here\x27s what", "i discovered", "what i wish i knew"],
      reWordB ["the secret", "the truth about", "reality is"]]
    indicators := [strL ("wisdom"), strL ("lesson"), strL ("insight"),
      strL ("realization")] }
  ,
  { type := .comparison
    patterns := [
      .seqR .bnd (.seqR (altList [.seqR (lit ("vs")) (.optR (lit ("."))),
        lit ("versus"), lit ("compared to"), lit ("instead of"),
        lit ("rather than")]) .bnd),
      reWordB ["the difference between", "this vs that"],
      reWordB ["while", "whereas", "on the other hand"]]
    indicators := [strL ("comparison"), strL ("contrast"), strL ("versus")] }
  ,
  { type := .myth_busting
    patterns := [
      reWordB ["myth", "misconception", "wrong about", "false", "lie",
        "believe"],
      reWordB ["don\x27t believe", "stop believing", "the truth about",
        "debunking"],
      reWordB ["actually", "in reality", "the reality is"]]
    indicators := [strL ("myth"), strL ("misconception"), strL ("debunking"),
      strL ("truth-reveal")] }
  ,
  { type := .lesson_learned
    patterns := [
      reWordB ["lesson", "learned", "mistake i made", "what i learned",
        "biggest lesson"],
      reWordB ["if i could go back", "i wish i knew",
        "i would tell my younger"],
      reWordB ["regret", "wish i had", "should have"]]
    indicators := [strL ("lesson"), strL ("mistake"), strL ("regret"),
      strL ("learning")] }
  ,
  { type := .thread
    patterns := [
      .seqR .bnd (.seqR (altList [lit ("thread"), .strR threadMoj,
        lit ("a thread")]) .bnd),
      .seqR (lit ("\n")) (.seqR reDigits (.seqR (lit ("/")) reDigits)),
      .seqR .bnd (.seqR (altList [.seqR (lit ("part ")) reDigits,
        lit ("continued"), lit ("follow for more")]) .bnd)]
    indicators := [strL ("thread"), strL ("series"), strL ("multi-part")] }
  ,
  { type := .narrative
    patterns := [
      reWordB ["once upon", "picture this", "imagine",
        "let me paint a picture"],
      reWordB ["the story of", "this is the story", "tale of"],
      reWordB ["it all started", "in the beginning"]]
    indicators := [strL ("narrative"), strL ("storytelling"),
      strL ("scenario")] }]

/-- Classifier verdict for the body component; `structureDesc` is the free
text `structure` field of the source. -/
structure BodyResult where
  type : BodyType
  confidence : ℚ
  structureDesc : Str
deriving DecidableEq, Repr

/-- Decimal representation of a number, for template interpolation. -/
def natToStr (n : Nat) : Str := (Nat.repr n).data

/-- Replaces the first occurrence of a character
(`String.prototype.replace` with a one-character string pattern). -/
def replaceFirstChar (a b : Char) : Str → Str
  | [] => []
  | c :: t => if c = a then b :: t else c :: replaceFirstChar a b t

/-- Translation of `detectBodyType`: the numbered-item/bullet structural
shortcut classifies LISTICLE at 0.9; otherwise every entry accumulates one
point per matching pattern and half a point per contained indicator (after
replacing the indicator's first dash by a space), with confidence
`min(0.9, 0.4 + matchCount*0.15)` and a strict-improvement fold starting
from INSIGHT_SHARING at 0.3. -/
def detectBodyType (parsed : ParsedContent) : BodyResult :=
  let content := lowerStr parsed.original
  let hasNumberedItems := jsTest hasNumberedRe parsed.original
  let hasBulletPoints := jsTest hasBulletRe parsed.original
  if hasNumberedItems || hasBulletPoints then
    let itemCount := (jsMatchAll hasNumberedRe parsed.original).length +
      (jsMatchAll hasBulletRe parsed.original).length
    { type := .listicle, confidence := 0.9,
      structureDesc := natToStr itemCount ++ strL (" items") }
  else
    bodyPatterns.foldl (fun best entry =>
      let patCount := (entry.patterns.filter fun p => jsTest p content).length
      let matchedInds := entry.indicators.filter fun i =>
        strContains content (replaceFirstChar '-' ' ' i)
      let matchCount : ℚ := patCount + matchedInds.length * 0.5
      if matchCount > 0 then
        let confidence := min 0.9 (0.4 + matchCount * 0.15)
        if confidence > best.confidence then
          { type := entry.type, confidence := confidence,
            structureDesc := (matchedInds.getLast?).getD (strL ("pattern-detected")) }
        else best
      else best)
      { type := .insight_sharing, confidence := 0.3,
        structureDesc := strL ("general") }

/-- Keyword table `EMOTIONAL_TRIGGER_WORDS`, in object insertion order. -/
def emotionalTriggerWords : List (EmotionalTrigger × List Str) := [
  (.curiosity, [strL ("secret"), strL ("hidden"), strL ("nobody knows"),
    strL ("revealed"), strL ("discover"), strL ("find out"),
    strL ("you need to see"), strL ("must read")]),
  (.fear, [strL ("avoid"), strL ("danger"), strL ("warning"),
    strL ("careful"), strL ("don\x27t make this mistake"), strL ("at risk"),
    strL ("losing"), strL ("scared")]),
  (.excitement, [strL ("amazing"), strL ("incredible"), strL ("breakthrough"),
    strL ("revolutionary"), strL ("game-changer"), strL ("exciting"),
    strL ("thrilled")]),
  (.validation, [strL ("you\x27re not alone"), strL ("it\x27s okay"),
    strL ("normal"), strL ("everyone struggles"), strL ("you deserve"),
    strL ("your feelings")]),
  (.surprise, [strL ("shocking"), strL ("unexpected"),
    strL ("you won\x27t believe"), strL ("surprising"), strL ("never thought"),
    strL ("plot twist")]),
  (.anger, [strL ("outrageous"), strL ("unacceptable"), strL ("ridiculous"),
    strL ("angry"), strL ("frustrated"), strL ("unfair"), strL ("injustice")]),
  (.nostalgia, [strL ("remember when"), strL ("back in the day"),
    strL ("used to"), strL ("growing up"), strL ("childhood"),
    strL ("the good old")]),
  (.inspiration, [strL ("dream"), strL ("believe"), strL ("achieve"),
    strL ("success"), strL ("inspire"), strL ("motivate"),
    strL ("you can do it"), strL ("never give up")]),
  (.frustration, [strL ("tired of"), strL ("sick of"),
    strL ("enough is enough"), strL ("frustrating"), strL ("annoying"),
    strL ("sick and tired")]),
  (.hope, [strL ("hope"), strL ("opportunity"), strL ("possible"),
    strL ("bright future"), strL ("looking forward"), strL ("optimistic"),
    strL ("better days")]),
  (.urgency, [strL ("now"), strL ("today"), strL ("immediately"),
    strL ("don\x27t wait"), strL ("running out"), strL ("limited time"),
    strL ("before it\x27s too late")]),
  (.fomo, [strL ("everyone is"), strL ("don\x27t miss"), strL ("last chance"),
    strL ("exclusive"), strL ("only"), strL (" spots left"),
    strL ("before everyone else")])]

/-- Translation of `detectEmotionalTriggers`: a trigger is reported once if
any of its keywords occurs in the lowercased text, categories in table
order. -/
def detectEmotionalTriggers (parsed : ParsedContent) : List EmotionalTrigger :=
  let content := lowerStr parsed.original
  emotionalTriggerWords.foldl (fun detected tw =>
    if tw.2.any (fun w => strContains content (lowerStr w)) then
      if detected.contains tw.1 then detected else detected ++ [tw.1]
    else detected) []

/-- The classifier's aggregate verdict (`DetectedFormatPattern`). -/
structure DetectedFormatPattern where
  hookType : HookType
  hookConfidence : ℚ
  hookText : Str
  bodyType : BodyType
  bodyConfidence : ℚ
  bodyStructure : Str
  ctaType : CTAType
  ctaConfidence : ℚ
  ctaText : Str
deriving DecidableEq, Repr

/-- Translation of `identifyFormatPattern` (the platform argument is
threaded through but unused, as in the source). -/
def identifyFormatPattern (parsed : ParsedContent) (_platform : Platform) :
    DetectedFormatPattern :=
  let hookResult := detectHookType parsed
  let bodyResult := detectBodyType parsed
  let ctaResult := detectCTAType parsed
  { hookType := hookResult.type
    hookConfidence := hookResult.confidence
    hookText := hookResult.matchedText
    bodyType := bodyResult.type
    bodyConfidence := bodyResult.confidence
    bodyStructure := bodyResult.structureDesc
    ctaType := ctaResult.type
    ctaConfidence := ctaResult.confidence
    ctaText := ctaResult.matchedText }

/-!
Virality scorer (`calculateViralityScore` and its six component scores).
-/

/-- Input post (`ViralPost`), trimmed to the fields the analyzed operations
consume: of the metrics record only `engagementRate` reaches the scorer,
and it is optional there. -/
structure ViralPost where
  id : Str
  platform : Platform
  content : Str
  engagementRate : Option ℚ
deriving DecidableEq, Repr

/-- Extracted viral signals, trimmed to the field the scorer and the
format-learning store consume (`emotionalTriggers`); the format-element,
timing, topic and indicator lists feed only reporting code. -/
structure ViralSignals where
  emotionalTriggers : List EmotionalTrigger
deriving DecidableEq, Repr

/-- Translation of `extractViralSignals`, restricted to the modelled field. -/
def extractViralSignals (parsed : ParsedContent) (_platform : Platform) :
    ViralSignals :=
  { emotionalTriggers := detectEmotionalTriggers parsed }

/-- Translation of `calculateHookScore` (cap 25). -/
def calculateHookScore (formatPattern : DetectedFormatPattern) : ℚ :=
  let baseScore : ℚ := if formatPattern.hookType ≠ HookType.none then 15 else 5
  let confidenceBonus := formatPattern.hookConfidence * 10
  min 25 (baseScore + confidenceBonus)

/-- Translation of `calculateBodyScore` (cap 25). -/
def calculateBodyScore (parsed : ParsedContent)
    (formatPattern : DetectedFormatPattern) : ℚ :=
  let score : ℚ := 10
  let score := score + (if formatPattern.bodyType ≠ BodyType.insight_sharing then 8 else 0)
  let score := score + formatPattern.bodyConfidence * 7
  let score := score + (if parsed.lineBreakStructure.totalLineBreaks > 3 then 3 else 0)
  let score := score + (if parsed.paragraphs.length > 1 then 2 else 0)
  min 25 score

/-- Base-score table of `calculateCTAScore` (the `|| 8` default of the
source is unreachable because the table is total). -/
def ctaScoreTable : CTAType → ℚ
  | .question_to_audience => 15
  | .engagement_bait => 14
  | .comment_prompt => 13
  | .share => 12
  | .save_for_later => 11
  | .link => 10
  | .follow_up => 9
  | .none => 5

/-- Translation of `calculateCTAScore` (cap 15). -/
def calculateCTAScore (formatPattern : DetectedFormatPattern) : ℚ :=
  if formatPattern.ctaType = CTAType.none then 5
  else
    let baseScore := ctaScoreTable formatPattern.ctaType
    let confidenceBonus := formatPattern.ctaConfidence * 5
    min 15 (baseScore - 5 + confidenceBonus)

/-- Translation of `calculateEmotionalScore` (cap 15); the privileged
strong-emotion set is exactly {curiosity, surprise, urgency}. -/
def calculateEmotionalScore (signals : ViralSignals) : ℚ :=
  let triggerCount := signals.emotionalTriggers.length
  let baseScore : ℚ := min 10 ((triggerCount : ℚ) * 3)
  let strongEmotions : List EmotionalTrigger := [.curiosity, .surprise, .urgency]
  let hasStrongEmotion := signals.emotionalTriggers.any fun t =>
    strongEmotions.contains t
  let strongEmotionBonus : ℚ := if hasStrongEmotion then 5 else 0
  min 15 (baseScore + strongEmotionBonus)

/-- Translation of `calculateFormatScore` (cap 10). -/
def calculateFormatScore (parsed : ParsedContent) (platform : Platform) : ℚ :=
  let score : ℚ := 5
  let score :=
    match platform with
    | .linkedin =>
      let score := score + (if parsed.lineBreakStructure.totalLineBreaks ≥ 3 then 2 else 0)
      let score := score + (if parsed.paragraphs.length ≥ 2 then 2 else 0)
      score + (if 1 ≤ parsed.emojiCount ∧ parsed.emojiCount ≤ 5 then 1 else 0)
    | .twitter =>
      let score := score + (if parsed.hasHashtags then 2 else 0)
      let score := score + (if 1 ≤ parsed.emojiCount then 2 else 0)
      score + (if parsed.wordCount ≤ 280 then 1 else 0)
  min 10 score

/-- Translation of `calculatePlatformFitScore` (cap 10). -/
def calculatePlatformFitScore (parsed : ParsedContent) (platform : Platform) : ℚ :=
  let score : ℚ := 5
  let score :=
    match platform with
    | .linkedin =>
      let score := score + (if 100 ≤ parsed.wordCount ∧ parsed.wordCount ≤ 400 then 3 else 0)
      score + (if 2 ≤ parsed.paragraphs.length then 2 else 0)
    | .twitter =>
      let score := score + (if parsed.wordCount ≤ 280 then 3 else 0)
      score + (if parsed.hasHashtags then 2 else 0)
  min 10 score

/-- Translation of `calculateViralityScore`: the six capped components are
summed, the total is boosted by 1.1 (and capped at 100) exactly when the
recorded engagement rate is present and above 5, and the result is the
final `Math.min(100, Math.round(score))`. -/
def calculateViralityScore (post : ViralPost) (parsed : ParsedContent)
    (formatPattern : DetectedFormatPattern) (signals : ViralSignals) : ℤ :=
  let score : ℚ :=
    calculateHookScore formatPattern +
    calculateBodyScore parsed formatPattern +
    calculateCTAScore formatPattern +
    calculateEmotionalScore signals +
    calculateFormatScore parsed post.platform +
    calculatePlatformFitScore parsed post.platform
  let boosted : Bool :=
    match post.engagementRate with
    | some r => r > 5
    | Option.none => false
  let score := if boosted then min 100 (score * 1.1) else score
  min 100 (jsRound score)

/-- Slice of an `AnalysisResult` consumed by the format-learning store:
the detected format pattern, the virality score, and the emotional triggers
(used for tag extraction). -/
structure AnalysisR where
  formatPattern : DetectedFormatPattern
  viralityScore : ℤ
  emotionalTriggers : List EmotionalTrigger
deriving DecidableEq, Repr

/-- Translation of `analyzePost`, restricted to the consumed slice. -/
def analyzePost (post : ViralPost) : AnalysisR :=
  let parsed := parsePostContent post.content
  let formatPattern := identifyFormatPattern parsed post.platform
  let viralSignals := extractViralSignals parsed post.platform
  { formatPattern := formatPattern
    viralityScore := calculateViralityScore post parsed formatPattern viralSignals
    emotionalTriggers := viralSignals.emotionalTriggers }

/-!
Format-learning store (`content-generator.ts`, format store half).  The
module-level `Map` is modelled as an explicit insertion-ordered association
list threaded through every operation; `\x7b`/`\x7d` are braces in template
literals.
-/

/-- Stored format pattern (`FormatPattern` without the wall-clock
`createdAt`/`updatedAt` fields). -/
structure FormatPattern where
  id : Str
  name : Str
  description : Str
  platform : Platform
  hookType : HookType
  bodyType : BodyType
  ctaType : CTAType
  template : Str
  examplePost : Str
  tags : List Str
  effectivenessScore : ℚ
  usageCount : Nat
deriving DecidableEq, Repr

/-- The in-memory store: insertion-ordered key/value pairs, as a JavaScript
`Map` iterates them. -/
abbrev Store := List (Str × FormatPattern)

/-- `Map.prototype.get`. -/
def mapGet (store : Store) (k : Str) : Option FormatPattern :=
  (store.find? fun e => decide (e.1 = k)).map fun e => e.2

/-- `Map.prototype.set`: replaces the value at an existing key in place,
otherwise appends the pair. -/
def mapSet (store : Store) (k : Str) (v : FormatPattern) : Store :=
  if store.any fun e => decide (e.1 = k) then
    store.map fun e => if e.1 = k then (k, v) else e
  else store ++ [(k, v)]

/-- Values in insertion order (`Array.from(store.values())`). -/
def storeValues (store : Store) : List FormatPattern := store.map fun e => e.2

/-- Translation of `generateFormatId`: the platform and the three enum
string values joined with dashes, lowercased, every character outside
`[a-z0-9-]` replaced by a dash. -/
def generateFormatId (hookType : HookType) (bodyType : BodyType)
    (ctaType : CTAType) (platform : Platform) : Str :=
  let hash := platform.str ++ strL ("-") ++ hookType.str ++ strL ("-") ++
    bodyType.str ++ strL ("-") ++ ctaType.str
  (lowerStr hash).map fun c =>
    if ('a' ≤ c && c ≤ 'z') || ('0' ≤ c && c ≤ '9') || c = '-' then c else '-'

/-- Display-name table for hooks in `generateFormatName`. -/
def hookDisplayName : HookType → Str
  | .question => strL ("Question Hook")
  | .bold_statement => strL ("Bold Statement")
  | .story => strL ("Story Opener")
  | .list => strL ("List Intro")
  | .controversial_take => strL ("Controversial")
  | .statistic => strL ("Data-Led")
  | .quote => strL ("Quote-Led")
  | .how_to => strL ("How-To")
  | .none => strL ("Direct")

/-- Display-name table for bodies in `generateFormatName`. -/
def bodyDisplayName : BodyType → Str
  | .problem_solution => strL ("Problem-Solution")
  | .story_driven => strL ("Story-Driven")
  | .listicle => strL ("Listicle")
  | .tutorial => strL ("Tutorial")
  | .insight_sharing => strL ("Insight")
  | .comparison => strL ("Comparison")
  | .myth_busting => strL ("Myth-Buster")
  | .lesson_learned => strL ("Lesson")
  | .thread => strL ("Thread")
  | .narrative => strL ("Narrative")

/-- Translation of `generateFormatName`. -/
def generateFormatName (hookType : HookType) (bodyType : BodyType) : Str :=
  hookDisplayName hookType ++ strL (" ") ++ bodyDisplayName bodyType

/-- Translation of `generateFormatDescription`. -/
def generateFormatDescription (hookType : HookType) (bodyType : BodyType)
    (ctaType : CTAType) (platform : Platform) : Str :=
  let platformNote :=
    match platform with
    | .linkedin => strL ("Optimized for LinkedIn professional audience.")
    | .twitter => strL ("Optimized for Twitter/X engagement.")
  strL ("Format using ") ++ hookType.str ++ strL (" hook with ") ++
    bodyType.str ++ strL (" structure and ") ++ ctaType.str ++
    strL (" call-to-action. ") ++ platformNote

/-- Translation of `generateTemplate`. -/
def generateTemplate (content : Str) (hookType : HookType)
    (bodyType : BodyType) (ctaType : CTAType) : Str :=
  let lines := (splitOnChar '\n' content).filter fun l => (jsTrim l).length > 0
  let templateParts : List Str :=
    if lines.length > 0 then
      [strL ("[HOOK: ") ++ upperStr hookType.str ++ strL ("]"),
       strL ("\x7bFirst line - grab attention\x7d"),
       []] ++
      (match bodyType with
       | .listicle =>
         [strL ("[BODY: LIST FORMAT]"), strL ("1. \x7bPoint one\x7d"),
          strL ("2. \x7bPoint two\x7d"), strL ("3. \x7bPoint three\x7d")]
       | .problem_solution =>
         [strL ("[BODY: PROBLEM → SOLUTION]"), strL ("\x7bDescribe the problem\x7d"),
          [], strL ("\x7bPresent the solution\x7d")]
       | .story_driven =>
         [strL ("[BODY: STORY]"), strL ("\x7bSet the scene\x7d"), [],
          strL ("\x7bThe conflict or challenge\x7d"), [],
          strL ("\x7bThe resolution or insight\x7d")]
       | _ =>
         [strL ("[BODY: MAIN CONTENT]"), strL ("\x7bKey insights and value\x7d")]) ++
      [[], strL ("[CTA: ") ++ upperStr ctaType.str ++ strL ("]"),
       strL ("\x7bCall to action\x7d")]
    else []
  List.intercalate (strL ("\n")) templateParts

/-- Topic keyword table of `extractTags`. -/
def topicKeywords : List (Str × List Str) := [
  (strL ("entrepreneurship"), [strL ("startup"), strL ("business"),
    strL ("entrepreneur"), strL ("founder"), strL ("company")]),
  (strL ("career"), [strL ("job"), strL ("career"), strL ("interview"),
    strL ("resume"), strL ("hiring"), strL ("promotion")]),
  (strL ("leadership"), [strL ("leader"), strL ("management"), strL ("team"),
    strL ("manager"), strL ("executive")]),
  (strL ("technology"), [strL ("ai"), strL ("tech"), strL ("software"),
    strL ("code"), strL ("developer"), strL ("automation")]),
  (strL ("finance"), [strL ("money"), strL ("invest"), strL ("wealth"),
    strL ("financial"), strL ("income"), strL ("revenue")]),
  (strL ("productivity"), [strL ("productivity"), strL ("habits"),
    strL ("efficiency"), strL ("time"), strL ("focus")]),
  (strL ("marketing"), [strL ("marketing"), strL ("sales"), strL ("growth"),
    strL ("customer"), strL ("brand")]),
  (strL ("self-improvement"), [strL ("growth"), strL ("mindset"),
    strL ("success"), strL ("goals"), strL ("improve")])]

/-- Order-preserving removal of duplicates (`[...new Set(tags)]`). -/
def dedupFirst (l : List Str) : List Str :=
  l.foldl (fun acc t => if acc.contains t then acc else acc ++ [t]) []

/-- Translation of `extractTags`: topic tags by keyword containment, then
the string values of the detected emotional triggers, deduplicated and
truncated to ten. -/
def extractTags (content : Str) (analysis : AnalysisR) : List Str :=
  let lowerContent := lowerStr content
  let topicTags := (topicKeywords.filter fun tk =>
    tk.2.any fun kw => strContains lowerContent kw).map fun tk => tk.1
  let triggerTags := analysis.emotionalTriggers.map fun t => t.str
  (dedupFirst (topicTags ++ triggerTags)).take 10

/-- Translation of `calculateUpdatedEffectiveness`: exponential moving
average with weight `min(0.3, 1/(usageCount+1))`. -/
def calculateUpdatedEffectiveness (currentScore newScore : ℚ)
    (usageCount : Nat) : ℚ :=
  let weight := min (0.3 : ℚ) (1 / ((usageCount : ℚ) + 1))
  currentScore * (1 - weight) + newScore * weight

/-- Translation of `learnFromPost`: analyze the post (or accept a
precomputed analysis), derive the deterministic format id, then either
EMA-update the existing record and bump its usage count, or create a fresh
record carrying the post's virality score with usage count one.  Returns
the stored pattern together with the updated store. -/
def learnFromPost (store : Store) (post : ViralPost)
    (analysisResult : Option AnalysisR) : FormatPattern × Store :=
  let analysis :=
    match analysisResult with
    | some a => a
    | Option.none => analyzePost post
  let formatId := generateFormatId analysis.formatPattern.hookType
    analysis.formatPattern.bodyType analysis.formatPattern.ctaType post.platform
  match mapGet store formatId with
  | some existingFormat =>
    let updatedFormat : FormatPattern :=
      { existingFormat with
        effectivenessScore := calculateUpdatedEffectiveness
          existingFormat.effectivenessScore (analysis.viralityScore : ℚ)
          existingFormat.usageCount
        usageCount := existingFormat.usageCount + 1 }
    (updatedFormat, mapSet store formatId updatedFormat)
  | Option.none =>
    let newFormat : FormatPattern :=
      { id := formatId
        name := generateFormatName analysis.formatPattern.hookType
          analysis.formatPattern.bodyType
        description := generateFormatDescription analysis.formatPattern.hookType
          analysis.formatPattern.bodyType analysis.formatPattern.ctaType
          post.platform
        platform := post.platform
        hookType := analysis.formatPattern.hookType
        bodyType := analysis.formatPattern.bodyType
        ctaType := analysis.formatPattern.ctaType
        template := generateTemplate post.content analysis.formatPattern.hookType
          analysis.formatPattern.bodyType analysis.formatPattern.ctaType
        examplePost := post.content
        tags := extractTags post.content analysis
        effectivenessScore := (analysis.viralityScore : ℚ)
        usageCount := 1 }
    (newFormat, mapSet store formatId newFormat)

/-- Translation of `batchLearn`: learn from each post in order. -/
def batchLearn (store : Store) (posts : List ViralPost) :
    List FormatPattern × Store :=
  posts.foldl (fun acc post =>
    let r := learnFromPost acc.2 post Option.none
    (acc.1 ++ [r.1], r.2)) ([], store)

/-- Stable insertion of a format after every element with an effectiveness
score at least as large (one step of the stable descending sort that the
JavaScript `sort((a, b) => b.effectivenessScore - a.effectivenessScore)`
performs). -/
def insertByEffDesc (f : FormatPattern) : List FormatPattern → List FormatPattern
  | [] => [f]
  | g :: t =>
    if f.effectivenessScore ≤ g.effectivenessScore then g :: insertByEffDesc f t
    else f :: g :: t

/-- Stable sort by effectiveness, descending. -/
def sortByEffDesc (l : List FormatPattern) : List FormatPattern :=
  l.foldl (fun acc f => insertByEffDesc f acc) []

/-- Translation of `getStoredFormats`: with a platform argument the values
are filtered and returned as they come; only the argument-less variant
sorts by effectiveness, descending. -/
def getStoredFormats (platform : Option Platform) (store : Store) :
    List FormatPattern :=
  let formats := storeValues store
  match platform with
  | some p => formats.filter fun f => decide (f.platform = p)
  | Option.none => sortByEffDesc formats

/-- Translation of `getFormatById`. -/
def getFormatById (id : Str) (store : Store) : Option FormatPattern :=
  mapGet store id

/-- Partial update record of `updateFormat`
(`Partial<Omit<FormatPattern, 'id' | 'createdAt'>>`). -/
structure FormatUpdates where
  name : Option Str := Option.none
  description : Option Str := Option.none
  platform : Option Platform := Option.none
  hookType : Option HookType := Option.none
  bodyType : Option BodyType := Option.none
  ctaType : Option CTAType := Option.none
  template : Option Str := Option.none
  examplePost : Option Str := Option.none
  tags : Option (List Str) := Option.none
  effectivenessScore : Option ℚ := Option.none
  usageCount : Option Nat := Option.none
deriving DecidableEq, Repr

/-- Spread-merge `{...existing, ...updates}` of `updateFormat`. -/
def applyUpdates (f : FormatPattern) (u : FormatUpdates) : FormatPattern :=
  { id := f.id
    name := u.name.getD f.name
    description := u.description.getD f.description
    platform := u.platform.getD f.platform
    hookType := u.hookType.getD f.hookType
    bodyType := u.bodyType.getD f.bodyType
    ctaType := u.ctaType.getD f.ctaType
    template := u.template.getD f.template
    examplePost := u.examplePost.getD f.examplePost
    tags := u.tags.getD f.tags
    effectivenessScore := u.effectivenessScore.getD f.effectivenessScore
    usageCount := u.usageCount.getD f.usageCount }

/-- Translation of `updateFormat`: null and an untouched store when the id
is unknown, otherwise the merged record is stored and returned. -/
def updateFormat (id : Str) (updates : FormatUpdates) (store : Store) :
    Option FormatPattern × Store :=
  match mapGet store id with
  | Option.none => (Option.none, store)
  | some existing =>
    let updated := applyUpdates existing updates
    (some updated, mapSet store id updated)

/-- Translation of `deleteFormat` (`Map.prototype.delete`): reports whether
the id was present and removes it. -/
def deleteFormat (id : Str) (store : Store) : Bool × Store :=
  if store.any fun e => decide (e.1 = id) then
    (true, store.filter fun e => !decide (e.1 = id))
  else (false, store)

/-- Translation of `exportFormats`. -/
def exportFormats (store : Store) : List FormatPattern := storeValues store

/-- Conflict policy of `importFormats`. -/
inductive MergeStrategy where
  | replace | merge | skip
deriving DecidableEq, Repr

/-- Translation of `importFormats`: unseen ids are inserted; on conflict,
`replace` overwrites, `merge` averages effectiveness, sums usage counts and
unions tags, and `skip` leaves the stored record. -/
def importFormats (formats : List FormatPattern) (mergeStrategy : MergeStrategy)
    (store : Store) : Store :=
  formats.foldl (fun st format =>
    match mapGet st format.id with
    | Option.none => mapSet st format.id format
    | some existing =>
      match mergeStrategy with
      | .replace => mapSet st format.id format
      | .merge =>
        let merged : FormatPattern :=
          { existing with
            effectivenessScore :=
              (existing.effectivenessScore + format.effectivenessScore) / 2
            usageCount := existing.usageCount + format.usageCount
            tags := dedupFirst (existing.tags ++ format.tags) }
        mapSet st format.id merged
      | .skip => st) store

/-- First seed format of `initializeDefaultFormats`. -/
def seedQuestionListicle : FormatPattern :=
  { id := strL ("linkedin-question-listicle")
    name := strL ("Question Hook Listicle")
    description := strL ("Opens with a question, delivers value through a numbered list")
    platform := .linkedin
    hookType := .question
    bodyType := .listicle
    ctaType := .save_for_later
    template := strL ("[HOOK: QUESTION]\n\x7bAsk a specific question your audience faces\x7d\n\n[BODY: NUMBERED LIST]\n1. \x7bFirst valuable point\x7d\n2. \x7bSecond valuable point\x7d\n3. \x7bThird valuable point\x7d\n\n[CTA: SAVE]\nSave this for later reference")
    examplePost := []
    tags := [strL ("educational"), strL ("value-driven")]
    effectivenessScore := 75
    usageCount := 100 }

/-- Second seed format of `initializeDefaultFormats`. -/
def seedStoryLesson : FormatPattern :=
  { id := strL ("linkedin-story-lesson")
    name := strL ("Story-Driven Lesson")
    description := strL ("Personal story that leads to a valuable lesson")
    platform := .linkedin
    hookType := .story
    bodyType := .lesson_learned
    ctaType := .comment_prompt
    template := strL ("[HOOK: STORY]\n\x7bSet up the story with context\x7d\n\n[BODY: STORY + LESSON]\n\x7bTell your story with the challenge\x7d\n\x7bShare what you learned\x7d\n\n[CTA: COMMENT]\nHave you experienced something similar? Share below.")
    examplePost := []
    tags := [strL ("personal"), strL ("relatable"), strL ("story")]
    effectivenessScore := 80
    usageCount := 150 }

/-- Third seed format of `initializeDefaultFormats`. -/
def seedBoldInsight : FormatPattern :=
  { id := strL ("twitter-bold-insight")
    name := strL ("Bold Statement Insight")
    description := strL ("Controversial or bold opening that delivers valuable insight")
    platform := .twitter
    hookType := .bold_statement
    bodyType := .insight_sharing
    ctaType := .engagement_bait
    template := strL ("[HOOK: BOLD]\n\x7bMake a bold, attention-grabbing statement\x7d\n\n[BODY: INSIGHT]\n\x7bBack it up with insight\x7d\n\n[CTA: ENGAGEMENT]\nRT if you agree 👇")
    examplePost := []
    tags := [strL ("bold"), strL ("controversial")]
    effectivenessScore := 70
    usageCount := 200 }

/-- Translation of `initializeDefaultFormats`: inserts each seed whose id
is not already present. -/
def initializeDefaultFormats (store : Store) : Store :=
  [seedQuestionListicle, seedStoryLesson, seedBoldInsight].foldl
    (fun st format =>
      if st.any fun e => decide (e.1 = format.id) then st
      else mapSet st format.id format) store

/-- Store state right after module initialization. -/
def seededStore : Store := initializeDefaultFormats []

/-!
Specification-side definitions.  `hookFirstRuleSpec` renders the analyzed
claim about hook detection word for word (first matching rule wins per hook
type); `hookCandidates`/`hookBestSpec` render the amended reading (highest
confidence wins, earliest rule in table order among equals).  Both are
compared against `detectHookType`, the translation of the source.
-/

/-- Candidate verdicts of every (hook type, rule) pair that matches, in
table order, with the confidence the source assigns to that rule. -/
def hookCandidates (parsed : ParsedContent) : List HookResult :=
  let firstLine := lowerStr (parsed.lines.headD [])
  let firstTwoLines := lowerStr (List.intercalate (strL (" ")) (parsed.lines.take 2))
  hookPatterns.flatMap fun tp =>
    if tp.1 = HookType.none then []
    else tp.2.filterMap fun pat =>
      (jsMatch pat firstLine <|> jsMatch pat firstTwoLines).map fun m =>
        { type := tp.1, confidence := if m.1 = 0 then (0.9 : ℚ) else 0.7,
          matchedText := m.2 }

/-- Amended hook-detection semantics: the first candidate attaining the
maximal confidence over all (type, rule) pairs wins, then the
question-mark fallback and the NONE default apply as the claim states. -/
def hookBestSpec (parsed : ParsedContent) : HookResult :=
  let cands := hookCandidates parsed
  let maxConf : ℚ := cands.foldl (fun m c => max m c.confidence) 0
  let best := (cands.find? fun c => decide (maxConf ≤ c.confidence)).getD
    { type := HookType.none, confidence := 0, matchedText := [] }
  if endsWithChar (parsed.lines.headD []) '?' && best.confidence < 0.8 then
    { type := .question, confidence := 0.85, matchedText := parsed.lines.headD [] }
  else best

/-- Hook-detection semantics exactly as the analyzed claim words it: for
each hook type only the first rule (in the type's ordered list) that
matches counts, the highest-confidence type wins, then the fallback and
default as stated. -/
def hookFirstRuleSpec (parsed : ParsedContent) : HookResult :=
  let firstLine := lowerStr (parsed.lines.headD [])
  let firstTwoLines := lowerStr (List.intercalate (strL (" ")) (parsed.lines.take 2))
  let best := hookPatterns.foldl (fun best tp =>
    if tp.1 = HookType.none then best
    else
      match tp.2.findSome? (fun pat => jsMatch pat firstLine <|> jsMatch pat firstTwoLines) with
      | some m =>
        let confidence : ℚ := if m.1 = 0 then 0.9 else 0.7
        if confidence > best.confidence then
          { type := tp.1, confidence := confidence, matchedText := m.2 }
        else best
      | Option.none => best)
    { type := HookType.none, confidence := 0, matchedText := [] }
  if endsWithChar (parsed.lines.headD []) '?' && best.confidence < 0.8 then
    { type := .question, confidence := 0.85, matchedText := parsed.lines.headD [] }
  else best

/-!
Concrete inputs for the analyzed scenarios.
-/

/-- Scenario input: obituary-style LinkedIn post. -/
def ripPost : Str :=
  strL ("RIP cold outreach.\n\nAgencies charge $5K for this. I automated it.\n\nComment SYSTEM below.")

/-- Input whose first line makes an early QUESTION rule match away from
position 0 while a later rule matches at position 0. -/
def everWondered : Str := strL ("ever wondered?")

/-- Detected pattern of the twitter/BOLD_STATEMENT/LISTICLE/SHARE triad
used by the learning scenario. -/
def boldListicleShareFP : DetectedFormatPattern :=
  { hookType := .bold_statement, hookConfidence := 0.9, hookText := []
    bodyType := .listicle, bodyConfidence := 0.9, bodyStructure := []
    ctaType := .share, ctaConfidence := 0.85, ctaText := [] }

/-- Precomputed analysis of the first scenario post (virality 40). -/
def scenarioAnalysis40 : AnalysisR :=
  { formatPattern := boldListicleShareFP, viralityScore := 40,
    emotionalTriggers := [] }

/-- Precomputed analysis of the second scenario post (virality 80). -/
def scenarioAnalysis80 : AnalysisR :=
  { formatPattern := boldListicleShareFP, viralityScore := 80,
    emotionalTriggers := [] }

/-- Carrier post of the learning scenario. -/
def scenarioPost : ViralPost :=
  { id := strL ("p1"), platform := .twitter, content := strL ("Example."),
    engagementRate := Option.none }

/-- Store with two twitter formats whose insertion order is ascending in
effectiveness, exhibiting the unsorted platform-filtered listing. -/
def lowBeforeHighStore : Store :=
  importFormats
    [{ seedBoldInsight with id := strL ("c6-low"), effectivenessScore := 10 },
     { seedBoldInsight with id := strL ("c6-high"), effectivenessScore := 99 }]
    .replace []

/-- Well-formedness of a store: every entry is keyed by its record's id and
keys are unique — every state reachable through the analyzed operations
satisfies it. -/
def WellFormedStore (store : Store) : Prop :=
  (∀ e ∈ store, e.2.id = e.1) ∧ (store.map Prod.fst).Nodup

/-- Store states reachable from module initialization through the learning
operations: single learns with the analysis computed from the post, learns
with a precomputed analyzer result, and batch learns. -/
inductive ReachableStore : Store → Prop where
  | seeded : ReachableStore seededStore
  | learn (store : Store) (post : ViralPost) : ReachableStore store →
      ReachableStore (learnFromPost store post Option.none).2
  | learnPrecomputed (store : Store) (post apost : ViralPost) :
      ReachableStore store →
      ReachableStore (learnFromPost store post (some (analyzePost apost))).2
  | batch (store : Store) (posts : List ViralPost) : ReachableStore store →
      ReachableStore (batchLearn store posts).2

/-!
General lemmas about folds and the store map, shared by the claim theorems.
-/

/-- A predicate preserved by every fold step holds for the fold. -/
theorem foldl_preserve {α β : Type _} (P : β → Prop) (f : β → α → β)
    (hf : ∀ b a, P b → P (f b a)) :
    ∀ (l : List α) (b : β), P b → P (l.foldl f b)
  | [], _, hb => hb
  | a :: l, b, hb => foldl_preserve P f hf l (f b a) (hf b a hb)

/-- A fold whose every step fixes the accumulator returns it unchanged. -/
theorem foldl_fix {α β : Type _} (f : β → α → β) (b : β) :
    ∀ l : List α, (∀ x ∈ l, f b x = b) → l.foldl f b = b
  | [], _ => rfl
  | a :: l, h => by
    have ha := h a (List.mem_cons_self a l)
    simpa [ha] using foldl_fix f b l fun x hx => h x (List.mem_cons_of_mem a hx)

/-!
Claim C10: the double-line-break flag is dead.
-/

/-- C10: for every input string, the blank lines are filtered out before
`analyzeLineBreaks` looks for them, so
`parsePostContent(text).lineBreakStructure.hasDoubleLineBreaks` is false on
every input. -/
theorem hasDoubleLineBreaks_always_false (content : Str) :
    (parsePostContent content).lineBreakStructure.hasDoubleLineBreaks = false := by
  simp only [parsePostContent, analyzeLineBreaks, List.any_eq_false]
  intro l hl
  have := List.of_mem_filter hl
  simp only [decide_eq_true_eq] at this ⊢
  omega

/-!
Claim C1: empty input.
-/

/-- C1: on the empty string `parsePostContent` returns zero counts and
empty extraction lists, but `lineBreakStructure.totalLineBreaks` evaluates
to `lines.length - 1 = -1`: the code does not floor the count at zero. -/
theorem parsePostContent_empty_line_break_floor :
    (parsePostContent []).wordCount = 0 ∧
    (parsePostContent []).emojiCount = 0 ∧
    (parsePostContent []).hashtags = [] ∧
    (parsePostContent []).mentions = [] ∧
    (parsePostContent []).links = [] ∧
    (parsePostContent []).numbers = [] ∧
    (parsePostContent []).lineBreakStructure.totalLineBreaks = -1 := by
  decide

/-!
Claim C6: platform filtering of the stored-format listing.
-/

/-- C6 (counterexample): in a store holding two twitter formats with
effectiveness 10 before 99, `getStoredFormats('twitter')` returns them in
insertion order, which is not sorted descending — the platform-filtered
branch returns without sorting. -/
theorem getStoredFormats_filtered_not_sorted :
    ¬ List.Sorted
      (fun a b : FormatPattern => b.effectivenessScore ≤ a.effectivenessScore)
      (getStoredFormats (some .twitter) lowBeforeHighStore) := by
  decide

/-- C6 (amended): `getStoredFormats(platform)` returns exactly the stored
formats whose platform equals the argument, in store insertion order; the
filtered listing is not re-sorted (only the platform-less call sorts by
effectiveness). -/
theorem getStoredFormats_filtered_exact (store : Store) (p : Platform) :
    getStoredFormats (some p) store =
      (storeValues store).filter (fun f => decide (f.platform = p)) ∧
    ∀ f, f ∈ getStoredFormats (some p) store ↔
      f ∈ storeValues store ∧ f.platform = p := by
  refine ⟨rfl, fun f => ?_⟩
  simp [getStoredFormats, List.mem_filter]

/-!
Claim C8: not-found semantics of the store CRUD operations.
-/

/-- C8: fetching, updating or deleting an id that is not stored signals
not-found (`undefined`/`null`/`false`) and leaves the store unchanged; all
three operations are total. -/
theorem store_unknown_id_signals (store : Store) (id : Str) (u : FormatUpdates)
    (h : ∀ e ∈ store, e.1 ≠ id) :
    getFormatById id store = Option.none ∧
    updateFormat id u store = (Option.none, store) ∧
    deleteFormat id store = (false, store) := by
  have hget : mapGet store id = Option.none := by
    have : store.find? (fun e => decide (e.1 = id)) = Option.none := by
      simp only [List.find?_eq_none, decide_eq_true_eq]
      exact h
    simp [mapGet, this]
  refine ⟨hget, ?_, ?_⟩
  · simp [updateFormat, hget]
  · have : (store.any fun e => decide (e.1 = id)) = false := by
      simp only [List.any_eq_false, decide_eq_true_eq]
      exact h
    simp [deleteFormat, this]

/-- C8 witness: the seeded store with an absent id. -/
theorem store_unknown_id_signals_witness :
    getFormatById (strL ("missing")) seededStore = Option.none ∧
    updateFormat (strL ("missing")) {} seededStore = (Option.none, seededStore) ∧
    deleteFormat (strL ("missing")) seededStore = (false, seededStore) :=
  store_unknown_id_signals seededStore (strL ("missing")) {} (by decide)

/-!
Claim C7: export/import round trip.
-/

/-- Mapping a function that fixes every member is the identity. -/
theorem map_id_of_mem {α : Type _} (f : α → α) :
    ∀ l : List α, (∀ e ∈ l, f e = e) → l.map f = l
  | [], _ => rfl
  | a :: l, h => by
    have := h a (List.mem_cons_self a l)
    simp only [List.map_cons, this, List.cons.injEq, true_and]
    exact map_id_of_mem f l fun e he => h e (List.mem_cons_of_mem a he)

/-- With unique keys, an entry is determined by its key. -/
theorem key_unique (store : Store) (hnd : (store.map Prod.fst).Nodup)
    {k : Str} {f : FormatPattern} (hm : (k, f) ∈ store) :
    ∀ e ∈ store, e.1 = k → e = (k, f) := by
  induction store with
  | nil => simp at hm
  | cons a t ih =>
    simp only [List.map_cons, List.nodup_cons] at hnd
    intro e he hek
    rcases List.mem_cons.mp he with rfl | het
    · rcases List.mem_cons.mp hm with h' | hmt
      · exact h'.symm
      · exfalso
        apply hnd.1
        simp only [List.mem_map]
        exact ⟨(k, f), hmt, hek.symm⟩
    · rcases List.mem_cons.mp hm with h' | hmt
      · exfalso
        apply hnd.1
        simp only [List.mem_map]
        exact ⟨e, het, by rw [hek, ← h']⟩
      · exact ih hnd.2 hmt e het hek

/-- Unfolding of `mapGet` on a cons cell. -/
theorem mapGet_cons (a : Str × FormatPattern) (t : Store) (k : Str) :
    mapGet (a :: t) k = if a.1 = k then some a.2 else mapGet t k := by
  by_cases h : a.1 = k
  · simp [mapGet, List.find?_cons_of_pos, h]
  · simp [mapGet, List.find?_cons_of_neg, h]

/-- With unique keys, `mapGet` finds exactly the stored entry. -/
theorem mapGet_of_mem (store : Store) (hnd : (store.map Prod.fst).Nodup)
    {k : Str} {f : FormatPattern} (hm : (k, f) ∈ store) :
    mapGet store k = some f := by
  induction store with
  | nil => simp at hm
  | cons a t ih =>
    by_cases ha : a.1 = k
    · have hak : a = (k, f) := key_unique (a :: t) hnd hm a (List.mem_cons_self a t) ha
      rw [mapGet_cons, if_pos ha, hak]
    · simp only [List.map_cons, List.nodup_cons] at hnd
      have hmt : (k, f) ∈ t := by
        rcases List.mem_cons.mp hm with h' | hmt
        · exfalso
          apply ha
          rw [← h']
        · exact hmt
      rw [mapGet_cons, if_neg ha]
      exact ih hnd.2 hmt

/-- Re-storing an entry that is already present leaves the store
unchanged. -/
theorem mapSet_mem_id (store : Store) (hnd : (store.map Prod.fst).Nodup)
    {k : Str} {f : FormatPattern} (hm : (k, f) ∈ store) :
    mapSet store k f = store := by
  unfold mapSet
  rw [if_pos (List.any_eq_true.mpr ⟨(k, f), hm, by simp⟩)]
  exact map_id_of_mem _ store fun e he => by
    by_cases h : e.1 = k
    · rw [if_pos h, key_unique store hnd hm e he h]
    · rw [if_neg h]

/-- C7: importing the exported formats with the `replace` strategy
reproduces the store exactly: every exported record re-writes itself under
its own id. -/
theorem import_export_replace_roundtrip (store : Store)
    (hwf : WellFormedStore store) (_hne : store ≠ []) :
    importFormats (exportFormats store) .replace store = store := by
  unfold importFormats exportFormats storeValues
  apply foldl_fix
  intro f hf
  obtain ⟨e, he, rfl⟩ := List.mem_map.mp hf
  have hm : (e.2.id, e.2) ∈ store := by
    have hid : e.2.id = e.1 := hwf.1 e he
    rw [hid]
    simpa using he
  have hget := mapGet_of_mem store hwf.2 hm
  simp only [hget]
  exact mapSet_mem_id store hwf.2 hm

/-- C7 witness: the seeded (non-empty, well-formed) store round-trips. -/
theorem import_export_replace_roundtrip_witness :
    importFormats (exportFormats seededStore) .replace seededStore = seededStore :=
  import_export_replace_roundtrip seededStore ⟨by decide, by decide⟩ (by decide)

/-!
Claim C3: the obituary-style scenario post.
-/

/-- C3 (counterexample): on the obituary-style post the hook classifier
returns NONE at confidence 0 — no entry of the hook rule table covers the
obituary phrasing — and no numeric token is extracted, because the trailing
word boundary of the number regex fails between `5` and `K` in `$5K`; the
claimed BOLD_STATEMENT/CONTROVERSIAL_TAKE hook at confidence ≥ 0.7 and
`hasNumbers = true` are therefore both false. -/
theorem ripPost_hook_none_no_numbers :
    (identifyFormatPattern (parsePostContent ripPost) .linkedin).hookType = HookType.none ∧
    (identifyFormatPattern (parsePostContent ripPost) .linkedin).hookConfidence = 0 ∧
    (parsePostContent ripPost).hasNumbers = false ∧
    (parsePostContent ripPost).numbers = [] := by
  decide

/-- C3 (amended): on the obituary-style LinkedIn post the classifier
returns hookType NONE at confidence 0 (the rule tables have no obituary
pattern), ctaType ENGAGEMENT_BAIT at confidence 0.85 ≥ 0.7 (the keyword
`comment` in the closing lines), and `hasNumbers = false` (`$5K` yields no
numeric token). -/
theorem ripPost_classification :
    (identifyFormatPattern (parsePostContent ripPost) .linkedin).hookType = HookType.none ∧
    (identifyFormatPattern (parsePostContent ripPost) .linkedin).hookConfidence = 0 ∧
    (identifyFormatPattern (parsePostContent ripPost) .linkedin).ctaType = CTAType.engagement_bait ∧
    (identifyFormatPattern (parsePostContent ripPost) .linkedin).ctaConfidence = 0.85 ∧
    (0.7 : ℚ) ≤ (identifyFormatPattern (parsePostContent ripPost) .linkedin).ctaConfidence ∧
    (parsePostContent ripPost).hasNumbers = false := by
  decide

/-!
Claim C2: exponential-moving-average learning.
-/

/-- C2: a learn against a stored format sets its effectiveness to
`old*(1-w) + new*w` with `w = min(0.3, 1/(usageCount+1))` and increments
the usage count; concretely, starting with no stored format for the
twitter/BOLD_STATEMENT/LISTICLE/SHARE triad, learning two posts of that
triad with virality 40 then 80 leaves one stored record with
usageCount 2 and effectivenessScore `40*0.7 + 80*0.3 = 52`. -/
theorem learnFromPost_ema_update :
    (∀ (store : Store) (post : ViralPost) (a : AnalysisR) (f : FormatPattern),
      mapGet store (generateFormatId a.formatPattern.hookType
        a.formatPattern.bodyType a.formatPattern.ctaType post.platform) = some f →
      (learnFromPost store post (some a)).1.effectivenessScore =
        f.effectivenessScore *
            (1 - min (0.3 : ℚ) (1 / ((f.usageCount : ℚ) + 1))) +
          (a.viralityScore : ℚ) * min (0.3 : ℚ) (1 / ((f.usageCount : ℚ) + 1)) ∧
      (learnFromPost store post (some a)).1.usageCount = f.usageCount + 1 ∧
      (learnFromPost store post (some a)).2 =
        mapSet store (generateFormatId a.formatPattern.hookType
          a.formatPattern.bodyType a.formatPattern.ctaType post.platform)
          (learnFromPost store post (some a)).1) ∧
    ((learnFromPost
        (learnFromPost seededStore scenarioPost (some scenarioAnalysis40)).2
        scenarioPost (some scenarioAnalysis80)).1.usageCount = 2 ∧
     (learnFromPost
        (learnFromPost seededStore scenarioPost (some scenarioAnalysis40)).2
        scenarioPost (some scenarioAnalysis80)).1.effectivenessScore = 52 ∧
     mapGet
        (learnFromPost
          (learnFromPost seededStore scenarioPost (some scenarioAnalysis40)).2
          scenarioPost (some scenarioAnalysis80)).2
        (generateFormatId .bold_statement .listicle .share .twitter) =
       some (learnFromPost
          (learnFromPost seededStore scenarioPost (some scenarioAnalysis40)).2
          scenarioPost (some scenarioAnalysis80)).1 ∧
     ((learnFromPost
          (learnFromPost seededStore scenarioPost (some scenarioAnalysis40)).2
          scenarioPost (some scenarioAnalysis80)).2.filter fun e =>
        decide (e.1 = generateFormatId .bold_statement .listicle .share .twitter)).length
       = 1) := by
  constructor
  · intro store post a f hget
    simp [learnFromPost, hget, calculateUpdatedEffectiveness]
  · decide

/-- C2 witness: the general EMA equation applied to the concrete second
learn of the scenario (stored format at effectiveness 40, usage count 1,
new score 80). -/
theorem learnFromPost_ema_update_witness :
    (learnFromPost
        (learnFromPost seededStore scenarioPost (some scenarioAnalysis40)).2
        scenarioPost (some scenarioAnalysis80)).1.effectivenessScore =
      40 * (1 - min (0.3 : ℚ) (1 / ((1 : ℚ) + 1))) +
        80 * min (0.3 : ℚ) (1 / ((1 : ℚ) + 1)) ∧
    (learnFromPost
        (learnFromPost seededStore scenarioPost (some scenarioAnalysis40)).2
        scenarioPost (some scenarioAnalysis80)).1.usageCount = 1 + 1 := by
  have hget : mapGet (learnFromPost seededStore scenarioPost (some scenarioAnalysis40)).2
      (generateFormatId scenarioAnalysis80.formatPattern.hookType
        scenarioAnalysis80.formatPattern.bodyType
        scenarioAnalysis80.formatPattern.ctaType scenarioPost.platform) =
      some (learnFromPost seededStore scenarioPost (some scenarioAnalysis40)).1 := by
    decide
  obtain ⟨h1, h2, _⟩ := learnFromPost_ema_update.1
    (learnFromPost seededStore scenarioPost (some scenarioAnalysis40)).2
    scenarioPost scenarioAnalysis80
    (learnFromPost seededStore scenarioPost (some scenarioAnalysis40)).1 hget
  refine ⟨?_, ?_⟩
  · rw [h1]
    decide
  · rw [h2]
    decide

/-!
Bounds on detector confidences and on the virality score (claims C4, C9).
-/

/-- The hook confidence is a probability-like value in [0, 1]. -/
theorem detectHookType_confidence_bounds (parsed : ParsedContent) :
    0 ≤ (detectHookType parsed).confidence ∧
    (detectHookType parsed).confidence ≤ 1 := by
  unfold detectHookType
  dsimp only
  split_ifs with h
  · norm_num
  · refine foldl_preserve (fun r : HookResult => 0 ≤ r.confidence ∧ r.confidence ≤ 1)
      _ (fun b tp hb => ?_) hookPatterns _ (by norm_num)
    dsimp only
    split_ifs with ht
    · exact hb
    · refine foldl_preserve (fun r : HookResult => 0 ≤ r.confidence ∧ r.confidence ≤ 1)
        _ (fun b' pat hb' => ?_) tp.2 b hb
      dsimp only
      cases jsMatch pat (lowerStr (parsed.lines.headD [])) <|>
          jsMatch pat (lowerStr (List.intercalate (strL (" ")) (parsed.lines.take 2))) with
      | none => exact hb'
      | some m =>
        dsimp only
        split_ifs <;> first | exact hb' | norm_num

/-- The CTA confidence is a probability-like value in [0, 1]. -/
theorem detectCTAType_confidence_bounds (parsed : ParsedContent) :
    0 ≤ (detectCTAType parsed).confidence ∧
    (detectCTAType parsed).confidence ≤ 1 := by
  unfold detectCTAType
  dsimp only
  split_ifs with h1 h2 h3
  · norm_num
  · norm_num
  · norm_num
  · refine foldl_preserve (fun r : CTAResult => 0 ≤ r.confidence ∧ r.confidence ≤ 1)
      _ (fun b tp hb => ?_) ctaPatterns _ (by norm_num)
    dsimp only
    split_ifs with ht
    · exact hb
    · refine foldl_preserve (fun r : CTAResult => 0 ≤ r.confidence ∧ r.confidence ≤ 1)
        _ (fun b' pat hb' => ?_) tp.2 b hb
      dsimp only
      cases jsMatch pat (lowerStr (List.intercalate (strL (" "))
          (parsed.lines.drop (parsed.lines.length - 3)))) <|>
          jsMatch pat (lowerStr parsed.original) with
      | none => exact hb'
      | some m =>
        dsimp only
        split_ifs <;> first | exact hb' | norm_num

/-- The body confidence is a probability-like value in [0, 1]. -/
theorem detectBodyType_confidence_bounds (parsed : ParsedContent) :
    0 ≤ (detectBodyType parsed).confidence ∧
    (detectBodyType parsed).confidence ≤ 1 := by
  unfold detectBodyType
  dsimp only
  split_ifs with h
  · norm_num
  · refine foldl_preserve (fun r : BodyResult => 0 ≤ r.confidence ∧ r.confidence ≤ 1)
      _ (fun b entry hb => ?_) bodyPatterns _ (by norm_num)
    dsimp only
    split_ifs with h1 h2
    · refine ⟨?_, ?_⟩
      · dsimp only
        refine le_min (by norm_num) ?_
        positivity
      · exact le_trans (min_le_left _ _) (by norm_num)
    · exact hb
    · exact hb

/-- The hook component score lies in [0, 25]. -/
theorem calculateHookScore_bounds (fp : DetectedFormatPattern)
    (h : 0 ≤ fp.hookConfidence) :
    0 ≤ calculateHookScore fp ∧ calculateHookScore fp ≤ 25 := by
  unfold calculateHookScore
  refine ⟨le_min (by norm_num) ?_, min_le_left _ _⟩
  dsimp only
  split_ifs <;> nlinarith

/-- The body component score lies in [0, 25]. -/
theorem calculateBodyScore_bounds (parsed : ParsedContent)
    (fp : DetectedFormatPattern) (h : 0 ≤ fp.bodyConfidence) :
    0 ≤ calculateBodyScore parsed fp ∧ calculateBodyScore parsed fp ≤ 25 := by
  unfold calculateBodyScore
  refine ⟨le_min (by norm_num) ?_, min_le_left _ _⟩
  dsimp only
  split_ifs <;> nlinarith

/-- The CTA component score lies in [0, 15]. -/
theorem calculateCTAScore_bounds (fp : DetectedFormatPattern)
    (h : 0 ≤ fp.ctaConfidence) :
    0 ≤ calculateCTAScore fp ∧ calculateCTAScore fp ≤ 15 := by
  unfold calculateCTAScore
  split_ifs with hc
  · norm_num
  · refine ⟨le_min (by norm_num) ?_, min_le_left _ _⟩
    dsimp only
    cases h9 : fp.ctaType <;> simp only [ctaScoreTable] <;> nlinarith

/-- The emotional component score lies in [0, 15]. -/
theorem calculateEmotionalScore_bounds (signals : ViralSignals) :
    0 ≤ calculateEmotionalScore signals ∧ calculateEmotionalScore signals ≤ 15 := by
  unfold calculateEmotionalScore
  refine ⟨le_min (by norm_num) ?_, min_le_left _ _⟩
  dsimp only
  have h0 : (0 : ℚ) ≤ min 10 ((signals.emotionalTriggers.length : ℚ) * 3) :=
    le_min (by norm_num) (by positivity)
  split_ifs <;> linarith

/-- The format component score lies in [0, 10]. -/
theorem calculateFormatScore_bounds (parsed : ParsedContent) (platform : Platform) :
    0 ≤ calculateFormatScore parsed platform ∧
    calculateFormatScore parsed platform ≤ 10 := by
  unfold calculateFormatScore
  refine ⟨le_min (by norm_num) ?_, min_le_left _ _⟩
  cases platform <;> dsimp only <;> split_ifs <;> norm_num

/-- The platform-fit component score lies in [0, 10]. -/
theorem calculatePlatformFitScore_bounds (parsed : ParsedContent) (platform : Platform) :
    0 ≤ calculatePlatformFitScore parsed platform ∧
    calculatePlatformFitScore parsed platform ≤ 10 := by
  unfold calculatePlatformFitScore
  refine ⟨le_min (by norm_num) ?_, min_le_left _ _⟩
  cases platform <;> dsimp only <;> split_ifs <;> norm_num

/-- The virality score is an integer in [0, 100] whenever the three
confidences are nonnegative. -/
theorem calculateViralityScore_bounds (post : ViralPost) (parsed : ParsedContent)
    (fp : DetectedFormatPattern) (signals : ViralSignals)
    (h1 : 0 ≤ fp.hookConfidence) (h2 : 0 ≤ fp.bodyConfidence)
    (h3 : 0 ≤ fp.ctaConfidence) :
    0 ≤ calculateViralityScore post parsed fp signals ∧
    calculateViralityScore post parsed fp signals ≤ 100 := by
  obtain ⟨ha0, ha1⟩ := calculateHookScore_bounds fp h1
  obtain ⟨hb0, hb1⟩ := calculateBodyScore_bounds parsed fp h2
  obtain ⟨hc0, hc1⟩ := calculateCTAScore_bounds fp h3
  obtain ⟨hd0, hd1⟩ := calculateEmotionalScore_bounds signals
  obtain ⟨he0, he1⟩ := calculateFormatScore_bounds parsed post.platform
  obtain ⟨hf0, hf1⟩ := calculatePlatformFitScore_bounds parsed post.platform
  unfold calculateViralityScore
  dsimp only
  set S : ℚ := calculateHookScore fp + calculateBodyScore parsed fp +
    calculateCTAScore fp + calculateEmotionalScore signals +
    calculateFormatScore parsed post.platform +
    calculatePlatformFitScore parsed post.platform with hS
  have hS0 : 0 ≤ S := by linarith
  have hS100 : S ≤ 100 := by linarith
  set q : ℚ := if (match post.engagementRate with
    | some r => decide (r > 5)
    | Option.none => false) = true then min 100 (S * 1.1) else S with hq
  have hq0 : 0 ≤ q := by
    rw [hq]
    split_ifs
    · exact le_min (by norm_num) (by nlinarith)
    · exact hS0
  refine ⟨le_min (by norm_num) ?_, min_le_left _ _⟩
  unfold jsRound
  rw [round_eq]
  exact Int.floor_nonneg.mpr (by linarith)

/-- C4: for every post, the three classifier confidences lie in [0, 1];
each of the six score components is capped at 25/25/15/15/10/10; the total
is boosted by the factor 1.1 (capped at 100) exactly when the recorded
engagement rate exceeds 5; and the resulting virality score is an integer
in [0, 100]. -/
theorem analysis_confidences_and_score_bounds (post : ViralPost) :
    (0 ≤ (identifyFormatPattern (parsePostContent post.content) post.platform).hookConfidence ∧
      (identifyFormatPattern (parsePostContent post.content) post.platform).hookConfidence ≤ 1) ∧
    (0 ≤ (identifyFormatPattern (parsePostContent post.content) post.platform).bodyConfidence ∧
      (identifyFormatPattern (parsePostContent post.content) post.platform).bodyConfidence ≤ 1) ∧
    (0 ≤ (identifyFormatPattern (parsePostContent post.content) post.platform).ctaConfidence ∧
      (identifyFormatPattern (parsePostContent post.content) post.platform).ctaConfidence ≤ 1) ∧
    (calculateHookScore (identifyFormatPattern (parsePostContent post.content) post.platform) ≤ 25 ∧
     calculateBodyScore (parsePostContent post.content)
       (identifyFormatPattern (parsePostContent post.content) post.platform) ≤ 25 ∧
     calculateCTAScore (identifyFormatPattern (parsePostContent post.content) post.platform) ≤ 15 ∧
     calculateEmotionalScore (extractViralSignals (parsePostContent post.content) post.platform) ≤ 15 ∧
     calculateFormatScore (parsePostContent post.content) post.platform ≤ 10 ∧
     calculatePlatformFitScore (parsePostContent post.content) post.platform ≤ 10) ∧
    (0 ≤ (analyzePost post).viralityScore ∧ (analyzePost post).viralityScore ≤ 100) ∧
    (analyzePost post).viralityScore =
      calculateViralityScore post (parsePostContent post.content)
        (identifyFormatPattern (parsePostContent post.content) post.platform)
        (extractViralSignals (parsePostContent post.content) post.platform) := by
  have hh := detectHookType_confidence_bounds (parsePostContent post.content)
  have hb := detectBodyType_confidence_bounds (parsePostContent post.content)
  have hc := detectCTAType_confidence_bounds (parsePostContent post.content)
  have hfp : identifyFormatPattern (parsePostContent post.content) post.platform =
      { hookType := (detectHookType (parsePostContent post.content)).type
        hookConfidence := (detectHookType (parsePostContent post.content)).confidence
        hookText := (detectHookType (parsePostContent post.content)).matchedText
        bodyType := (detectBodyType (parsePostContent post.content)).type
        bodyConfidence := (detectBodyType (parsePostContent post.content)).confidence
        bodyStructure := (detectBodyType (parsePostContent post.content)).structureDesc
        ctaType := (detectCTAType (parsePostContent post.content)).type
        ctaConfidence := (detectCTAType (parsePostContent post.content)).confidence
        ctaText := (detectCTAType (parsePostContent post.content)).matchedText } := rfl
  have h1 : 0 ≤ (identifyFormatPattern (parsePostContent post.content) post.platform).hookConfidence ∧
      (identifyFormatPattern (parsePostContent post.content) post.platform).hookConfidence ≤ 1 := by
    rw [hfp]; exact hh
  have h2 : 0 ≤ (identifyFormatPattern (parsePostContent post.content) post.platform).bodyConfidence ∧
      (identifyFormatPattern (parsePostContent post.content) post.platform).bodyConfidence ≤ 1 := by
    rw [hfp]; exact hb
  have h3 : 0 ≤ (identifyFormatPattern (parsePostContent post.content) post.platform).ctaConfidence ∧
      (identifyFormatPattern (parsePostContent post.content) post.platform).ctaConfidence ≤ 1 := by
    rw [hfp]; exact hc
  refine ⟨h1, h2, h3, ?_, ?_, rfl⟩
  · exact ⟨(calculateHookScore_bounds _ h1.1).2, (calculateBodyScore_bounds _ _ h2.1).2,
      (calculateCTAScore_bounds _ h3.1).2, (calculateEmotionalScore_bounds _).2,
      (calculateFormatScore_bounds _ _).2, (calculatePlatformFitScore_bounds _ _).2⟩
  · exact calculateViralityScore_bounds post _ _ _ h1.1 h2.1 h3.1

/-- Bounds of the analyzer's score, packaged for the store invariant. -/
theorem analyzePost_score_bounds (post : ViralPost) :
    0 ≤ (analyzePost post).viralityScore ∧ (analyzePost post).viralityScore ≤ 100 :=
  (analysis_confidences_and_score_bounds post).2.2.2.2.1

/-!
Claim C9: the store invariant under learning.
-/

/-- A value of the store after `mapSet` is an old value or the new one. -/
theorem mem_storeValues_mapSet {f : FormatPattern} (store : Store) (k : Str)
    (v : FormatPattern) (h : f ∈ storeValues (mapSet store k v)) :
    f ∈ storeValues store ∨ f = v := by
  unfold mapSet storeValues at h
  unfold storeValues
  split_ifs at h with hc
  · rw [List.map_map] at h
    obtain ⟨e, he, heq⟩ := List.mem_map.mp h
    by_cases hek : e.1 = k
    · right
      simp only [Function.comp, hek, if_pos] at heq
      exact heq.symm
    · left
      simp only [Function.comp, hek, if_neg, not_false_iff] at heq
      exact heq ▸ List.mem_map_of_mem _ he
  · rw [List.map_append] at h
    rcases List.mem_append.mp h with h1 | h2
    · exact Or.inl h1
    · right
      simpa using h2
  
/-- A successful `mapGet` returns a stored value. -/
theorem mapGet_mem (store : Store) (k : Str) (f : FormatPattern)
    (h : mapGet store k = some f) : f ∈ storeValues store := by
  unfold mapGet at h
  cases hfind : store.find? (fun e => decide (e.1 = k)) with
  | none => rw [hfind] at h; simp at h
  | some e =>
    rw [hfind] at h
    obtain rfl : e.2 = f := by simpa using h
    exact List.mem_map_of_mem _ (List.mem_of_find?_eq_some hfind)

/-- The EMA update keeps the effectiveness inside [0, 100]. -/
theorem calculateUpdatedEffectiveness_bounds (e n : ℚ) (count : Nat)
    (he0 : 0 ≤ e) (he1 : e ≤ 100) (hn0 : 0 ≤ n) (hn1 : n ≤ 100) :
    0 ≤ calculateUpdatedEffectiveness e n count ∧
    calculateUpdatedEffectiveness e n count ≤ 100 := by
  unfold calculateUpdatedEffectiveness
  dsimp only
  have hw0 : (0 : ℚ) ≤ min (0.3 : ℚ) (1 / ((count : ℚ) + 1)) :=
    le_min (by norm_num) (by positivity)
  have hw1 : min (0.3 : ℚ) (1 / ((count : ℚ) + 1)) ≤ 1 :=
    le_trans (min_le_left _ _) (by norm_num)
  constructor <;> nlinarith

/-- One learn with an analysis whose score lies in [0, 100] preserves the
store invariant. -/
theorem learnFromPost_preserves_bounds (store : Store) (post : ViralPost)
    (a : AnalysisR) (h0 : 0 ≤ a.viralityScore) (h100 : a.viralityScore ≤ 100)
    (hInv : ∀ f ∈ storeValues store,
      (0 ≤ f.effectivenessScore ∧ f.effectivenessScore ≤ 100) ∧ 1 ≤ f.usageCount) :
    ∀ f ∈ storeValues (learnFromPost store post (some a)).2,
      (0 ≤ f.effectivenessScore ∧ f.effectivenessScore ≤ 100) ∧ 1 ≤ f.usageCount := by
  intro f hf
  unfold learnFromPost at hf
  dsimp only at hf
  cases hget : mapGet store (generateFormatId a.formatPattern.hookType
      a.formatPattern.bodyType a.formatPattern.ctaType post.platform) with
  | none =>
    rw [hget] at hf
    dsimp only at hf
    rcases mem_storeValues_mapSet store _ _ hf with hold | rfl
    · exact hInv f hold
    · refine ⟨⟨?_, ?_⟩, ?_⟩ <;> dsimp only
      · exact_mod_cast h0
      · exact_mod_cast h100
      · exact le_refl 1
  | some existing =>
    rw [hget] at hf
    dsimp only at hf
    rcases mem_storeValues_mapSet store _ _ hf with hold | rfl
    · exact hInv f hold
    · have hex := hInv existing (mapGet_mem store _ existing hget)
      refine ⟨?_, ?_⟩ <;> dsimp only
      · exact calculateUpdatedEffectiveness_bounds existing.effectivenessScore
          (a.viralityScore : ℚ) existing.usageCount hex.1.1 hex.1.2
          (by exact_mod_cast h0) (by exact_mod_cast h100)
      · exact le_trans hex.2 (Nat.le_succ _)

/-- Batch learning preserves the store invariant. -/
theorem batchLearn_preserves_bounds (posts : List ViralPost) :
    ∀ (acc : List FormatPattern) (store : Store),
      (∀ f ∈ storeValues store,
        (0 ≤ f.effectivenessScore ∧ f.effectivenessScore ≤ 100) ∧ 1 ≤ f.usageCount) →
      ∀ f ∈ storeValues (posts.foldl (fun acc post =>
          ((acc.1 ++ [(learnFromPost acc.2 post Option.none).1],
            (learnFromPost acc.2 post Option.none).2) : List FormatPattern × Store))
          (acc, store)).2,
        (0 ≤ f.effectivenessScore ∧ f.effectivenessScore ≤ 100) ∧ 1 ≤ f.usageCount := by
  induction posts with
  | nil => intro acc store hInv; exact hInv
  | cons p ps ih =>
    intro acc store hInv
    exact ih _ _ (learnFromPost_preserves_bounds store p (analyzePost p)
      (analyzePost_score_bounds p).1 (analyzePost_score_bounds p).2 hInv)

/-- C9: from the seeded store, any sequence of `learnFromPost`/`batchLearn`
calls keeps every stored format's effectivenessScore inside [0, 100] and
its usageCount at least 1: new formats carry the analyzer's clamped score
at count 1, and each re-learn is a convex EMA combination of two values in
[0, 100] together with a count increment. -/
theorem reachable_store_invariant (store : Store) (h : ReachableStore store) :
    ∀ f ∈ storeValues store,
      (0 ≤ f.effectivenessScore ∧ f.effectivenessScore ≤ 100) ∧ 1 ≤ f.usageCount := by
  induction h with
  | seeded => decide
  | learn s post _ ih =>
    exact learnFromPost_preserves_bounds s post (analyzePost post)
      (analyzePost_score_bounds post).1 (analyzePost_score_bounds post).2 ih
  | learnPrecomputed s post apost _ ih =>
    exact learnFromPost_preserves_bounds s post (analyzePost apost)
      (analyzePost_score_bounds apost).1 (analyzePost_score_bounds apost).2 ih
  | batch s posts _ ih =>
    exact batchLearn_preserves_bounds posts [] s ih

set_option maxRecDepth 40000 in
/-- C9 witness: the invariant instantiated at the seeded store. -/
theorem reachable_store_invariant_witness :
    (0 ≤ seedQuestionListicle.effectivenessScore ∧
      seedQuestionListicle.effectivenessScore ≤ 100) ∧
    1 ≤ seedQuestionListicle.usageCount :=
  reachable_store_invariant seededStore ReachableStore.seeded
    seedQuestionListicle (by decide)

/-!
Claim C5: hook-rule precedence.
-/

/-- Folds of pointwise-equal step functions agree. -/
theorem foldl_ext_mem {α β : Type _} (f g : β → α → β) :
    ∀ (l : List α) (b : β), (∀ b' a, a ∈ l → f b' a = g b' a) →
      l.foldl f b = l.foldl g b
  | [], _, _ => rfl
  | a :: l, b, h => by
    rw [List.foldl_cons, List.foldl_cons, h b a (List.mem_cons_self a l)]
    exact foldl_ext_mem f g l _ fun b' x hx => h b' x (List.mem_cons_of_mem a hx)

/-- A fold over a `filterMap` is a fold that skips the filtered elements. -/
theorem foldl_over_filterMap {α β γ : Type _} (f : α → Option β) (g : γ → β → γ) :
    ∀ (l : List α) (b : γ),
      (l.filterMap f).foldl g b =
        l.foldl (fun acc a =>
          match f a with | some x => g acc x | Option.none => acc) b
  | [], _ => rfl
  | a :: l, b => by
    cases hfa : f a with
    | none => simp [List.filterMap_cons, hfa, foldl_over_filterMap f g l]
    | some x => simp [List.filterMap_cons, hfa, foldl_over_filterMap f g l]

/-- A fold over a `flatMap` is the nested fold. -/
theorem foldl_over_flatMap {α β γ : Type _} (f : α → List β) (g : γ → β → γ) :
    ∀ (l : List α) (b : γ),
      (l.flatMap f).foldl g b = l.foldl (fun acc a => (f a).foldl g acc) b
  | [], _ => rfl
  | a :: l, b => by
    rw [List.flatMap_cons, List.foldl_append, List.foldl_cons]
    exact foldl_over_flatMap f g l _

/-- The running maximum dominates its base. -/
theorem le_foldl_maxConf :
    ∀ (l : List HookResult) (q : ℚ),
      q ≤ l.foldl (fun m c => max m c.confidence) q
  | [], q => le_refl q
  | c :: l, q =>
    le_trans (le_max_left q c.confidence) (le_foldl_maxConf l _)

/-- The running maximum dominates every member. -/
theorem foldl_maxConf_of_mem :
    ∀ (l : List HookResult) (q : ℚ) (c : HookResult), c ∈ l →
      c.confidence ≤ l.foldl (fun m c => max m c.confidence) q
  | [], _, _, h => absurd h (List.not_mem_nil _)
  | a :: l, q, c, h => by
    rw [List.foldl_cons]
    rcases List.mem_cons.mp h with rfl | hl
    · exact le_trans (le_max_right q c.confidence) (le_foldl_maxConf l _)
    · exact foldl_maxConf_of_mem l _ c hl

/-- When the running maximum strictly exceeds its base, some member
attains it. -/
theorem find?_maxConf_isSome :
    ∀ (l : List HookResult) (q M : ℚ),
      l.foldl (fun m c => max m c.confidence) q = M → q < M →
      (l.find? fun c => decide (M ≤ c.confidence)).isSome = true
  | [], q, M, hM, hq => by
    rw [List.foldl_nil] at hM
    subst hM
    exact absurd hq (lt_irrefl q)
  | c :: l, q, M, hM, hq => by
    rw [List.foldl_cons] at hM
    by_cases hc : M ≤ c.confidence
    · rw [List.find?_cons_of_pos _ (by simpa using hc)]
      rfl
    · rw [List.find?_cons_of_neg _ (by simpa using hc)]
      exact find?_maxConf_isSome l (max q c.confidence) M hM
        (max_lt hq (not_le.mp hc))

/-- A strict-improvement fold selects the first element attaining the
overall maximum (or its base when nothing exceeds it). -/
theorem foldl_strict_best :
    ∀ (l : List HookResult) (b : HookResult) (M : ℚ),
      l.foldl (fun m c => max m c.confidence) b.confidence = M →
      l.foldl (fun best c =>
          if c.confidence > best.confidence then c else best) b =
        if b.confidence < M then
          (l.find? fun c => decide (M ≤ c.confidence)).getD b
        else b
  | [], b, M, hM => by
    rw [List.foldl_nil] at hM
    rw [List.foldl_nil, if_neg (hM ▸ lt_irrefl b.confidence)]
  | c :: t, b, M, hM => by
    rw [List.foldl_cons] at hM
    rw [List.foldl_cons]
    by_cases hc : c.confidence > b.confidence
    · have hmax : max b.confidence c.confidence = c.confidence := max_eq_right hc.le
      rw [hmax] at hM
      have hbM : b.confidence < M :=
        lt_of_lt_of_le hc (hM ▸ le_foldl_maxConf t c.confidence)
      rw [if_pos hc, foldl_strict_best t c M hM, if_pos hbM]
      by_cases h2 : c.confidence < M
      · rw [if_pos h2, List.find?_cons_of_neg _ (by simp [not_le.mpr h2])]
        have hsome := find?_maxConf_isSome t c.confidence M hM h2
        cases hfind : t.find? fun c => decide (M ≤ c.confidence) with
        | none => rw [hfind] at hsome; simp at hsome
        | some x => rfl
      · rw [if_neg h2, List.find?_cons_of_pos _ (by simp [not_lt.mp h2])]
        rfl
    · have hcle : c.confidence ≤ b.confidence := not_lt.mp hc
      have hmax : max b.confidence c.confidence = b.confidence := max_eq_left hcle
      rw [hmax] at hM
      rw [if_neg hc, foldl_strict_best t b M hM]
      by_cases hbM : b.confidence < M
      · rw [if_pos hbM, if_pos hbM,
          List.find?_cons_of_neg _ (by simp [not_le.mpr (lt_of_le_of_lt hcle hbM)])]
      · rw [if_neg hbM, if_neg hbM]

/-- Every hook candidate carries confidence 0.9 or 0.7. -/
theorem hookCandidates_conf (parsed : ParsedContent) :
    ∀ c ∈ hookCandidates parsed, c.confidence = 0.9 ∨ c.confidence = 0.7 := by
  intro c hc
  unfold hookCandidates at hc
  simp only [List.mem_flatMap] at hc
  obtain ⟨tp, _, hc⟩ := hc
  split_ifs at hc with h
  · simp at hc
  · simp only [List.mem_filterMap] at hc
    obtain ⟨pat, _, heq⟩ := hc
    cases hm : jsMatch pat (lowerStr (parsed.lines.headD [])) <|>
        jsMatch pat (lowerStr (List.intercalate (strL (" ")) (parsed.lines.take 2))) with
    | none => rw [hm] at heq; simp at heq
    | some m =>
      rw [hm] at heq
      have hcm : HookResult.mk tp.1 (if m.1 = 0 then (0.9 : ℚ) else 0.7) m.2 = c := by
        simpa using heq
      rw [← hcm]
      dsimp only
      split_ifs
      · exact Or.inl rfl
      · exact Or.inr rfl

/-- C5 (amended): hook detection keeps, across all (hook type, rule) pairs
in table order, the single highest-confidence match — an earlier pair wins
only ties, so within one type a later rule matching at position 0 beats an
earlier rule matching later in the string — then applies the QUESTION
fallback at 0.85 when the best confidence is below 0.8 and the first line
ends in a question mark, and returns NONE at 0 when nothing matches. -/
theorem detectHookType_eq_hookBestSpec (parsed : ParsedContent) :
    detectHookType parsed = hookBestSpec parsed := by
  unfold detectHookType hookBestSpec
  dsimp only
  have step1 : hookPatterns.foldl (fun best tp =>
      if tp.1 = HookType.none then best
      else tp.2.foldl (fun best pat =>
        match jsMatch pat (lowerStr (parsed.lines.headD [])) <|>
            jsMatch pat (lowerStr (List.intercalate (strL (" ")) (parsed.lines.take 2))) with
        | some m =>
          if (if m.1 = 0 then (0.9 : ℚ) else 0.7) > best.confidence then
            { type := tp.1, confidence := if m.1 = 0 then (0.9 : ℚ) else 0.7,
              matchedText := m.2 }
          else best
        | Option.none => best) best)
      { type := HookType.none, confidence := 0, matchedText := [] } =
      (hookCandidates parsed).foldl (fun best c =>
        if c.confidence > best.confidence then c else best)
      { type := HookType.none, confidence := 0, matchedText := [] } := by
    unfold hookCandidates
    dsimp only
    rw [foldl_over_flatMap]
    apply foldl_ext_mem
    intro b tp _
    split_ifs with h
    · rfl
    · rw [foldl_over_filterMap]
      apply foldl_ext_mem
      intro b' pat _
      cases hm : jsMatch pat (lowerStr (parsed.lines.headD [])) <|>
          jsMatch pat (lowerStr (List.intercalate (strL (" ")) (parsed.lines.take 2))) with
      | none => rfl
      | some m => rfl
  rw [step1]
  have step2 := foldl_strict_best (hookCandidates parsed)
    { type := HookType.none, confidence := 0, matchedText := [] }
    ((hookCandidates parsed).foldl (fun m c => max m c.confidence) 0) rfl
  rw [step2]
  have step3 : (if (0 : ℚ) <
        (hookCandidates parsed).foldl (fun m c => max m c.confidence) 0 then
      ((hookCandidates parsed).find? fun c =>
        decide ((hookCandidates parsed).foldl (fun m c => max m c.confidence) 0 ≤
          c.confidence)).getD
        { type := HookType.none, confidence := 0, matchedText := [] }
    else { type := HookType.none, confidence := 0, matchedText := [] }) =
      ((hookCandidates parsed).find? fun c =>
        decide ((hookCandidates parsed).foldl (fun m c => max m c.confidence) 0 ≤
          c.confidence)).getD
        { type := HookType.none, confidence := 0, matchedText := [] } := by
    cases hcs : hookCandidates parsed with
    | nil => simp
    | cons c t =>
      have hcc : c.confidence = 0.9 ∨ c.confidence = 0.7 :=
        hookCandidates_conf parsed c (hcs ▸ List.mem_cons_self c t)
      have hge : c.confidence ≤ (c :: t).foldl (fun m c => max m c.confidence) 0 :=
        foldl_maxConf_of_mem (c :: t) 0 c (List.mem_cons_self c t)
      have hpos : (0 : ℚ) < (c :: t).foldl (fun m c => max m c.confidence) 0 := by
        rcases hcc with h | h <;> rw [h] at hge <;> linarith
      rw [if_pos hpos]
  rw [step3]

/-- C5 (counterexample): on the input `"ever wondered?"` the first QUESTION
rule that matches is `/\?$/` (confidence 0.7, mid-string), so under the
claimed first-rule-wins semantics the best pre-fallback confidence is below
0.8 and the fallback would return confidence 0.85; the source instead lets
the later rule `/^(ever wondered|...)/` win at 0.9, so the claimed
semantics disagrees with the code. -/
theorem detectHookType_first_rule_counterexample :
    (detectHookType (parsePostContent everWondered)).type = HookType.question ∧
    (detectHookType (parsePostContent everWondered)).confidence = 0.9 ∧
    (hookFirstRuleSpec (parsePostContent everWondered)).confidence = 0.85 ∧
    detectHookType (parsePostContent everWondered) ≠
      hookFirstRuleSpec (parsePostContent everWondered) := by
  decide
